import Mathlib

/-!
# RAK3172 driver for the ESP32: command/response engine

A shallow embedding of `src/src/rak3172.cpp` (the functions of
`src/src/Commands/rak3172_commands.cpp` are textually repeated there) and the
properties of its specification.

Modelling conventions.

* `std::string` is the list of its characters (`CppString`).
* The FreeRTOS queue `Internal.RxQueue` is the list of the lines it delivers, oldest
  first. `xQueueReceive` with a timeout hands out the head of that list; it fails
  (`pdFAIL`, the timeout elapsed) exactly when the list holds no line.
* Every byte handed to `uart_write_bytes` is appended to `Sys.Wire`.
* Calls that manage a resource (heap, task, UART driver, queue handle, GPIO) are
  recorded in `Sys.Ops`, in call order.
* A C++ exception leaving a function is the outcome `Outcome.throws`; a call that
  runs into undefined behaviour has the outcome `Outcome.undefined`.
* The `#ifdef CONFIG_...` switches are the fields of `Config`.
* `ESP_LOGx` diagnostics have no effect on the modelled state and are left out.
-/

namespace RAK3172

/-! ## `std::string` -/

/-- A `std::string`, as the sequence of its characters. -/
abbrev CppString := List Char

/-- The value `std::string::npos` for the 32-bit `size_t` of the ESP32. -/
def npos : Nat := 2 ^ 32 - 1

/-- Search of `std::string::find`, started at offset `i` of the original string; the
first argument of the recursion is what remains of the string from that offset on. -/
def find_from (pat : CppString) : CppString → Nat → Option Nat
  | [], i => if pat = [] then some i else none
  | c :: t, i => if pat.isPrefixOf (c :: t) then some i else find_from pat t (i + 1)

/-- The call `s.find(pat)`: the lowest position at which `pat` occurs in `s`; `none`
stands for the result `npos` (no occurrence). -/
def find (s pat : CppString) : Option Nat := find_from pat s 0

/-- The `size_t` value of a result of `find`. -/
def size_t_of_find : Option Nat → Nat
  | none => npos
  | some i => i

/-- C++ exceptions of the standard library that the driver can raise. -/
inductive CppException where
  | invalid_argument
  | out_of_range
  deriving DecidableEq, Repr

/-- The call `s.substr(pos)`: throws `std::out_of_range` when `pos > s.size()`. -/
def substr (s : CppString) (pos : Nat) : Except CppException CppString :=
  if pos > s.length then .error .out_of_range else .ok (s.drop pos)

/-- The function `isspace` of the C locale. -/
def isspace (c : Char) : Bool :=
  c = ' ' || c = '\t' || c = '\n' || c = '\x0b' || c = '\x0c' || c = '\r'

/-- Lower bound of `int` on the ESP32. -/
def INT_MIN : Int := -(2 ^ 31)

/-- Upper bound of `int` on the ESP32. -/
def INT_MAX : Int := 2 ^ 31 - 1

/-- Value of a run of decimal digits, most significant first. -/
def digitsValue (ds : List Char) : Nat :=
  ds.foldl (fun acc c => 10 * acc + (c.toNat - '0'.toNat)) 0

/-- The call `std::stoi(str)` (base 10, no position output), as the C++ standard
defines it through `strtol`: leading white space is skipped, one optional sign is
read, then the longest run of decimal digits; what follows the digits is ignored.
Without any digit `std::invalid_argument` is thrown, and `std::out_of_range` when the
number does not fit an `int`. -/
def stoi (str : CppString) : Except CppException Int :=
  let s := str.dropWhile isspace
  let neg := s.head? = some '-'
  let body := if s.head? = some '-' ∨ s.head? = some '+' then s.tail else s
  let ds := body.takeWhile Char.isDigit
  if ds = [] then .error .invalid_argument
  else
    let v : Int := if neg then -(digitsValue ds : Int) else (digitsValue ds : Int)
    if v < INT_MIN ∨ INT_MAX < v then .error .out_of_range else .ok v

/-- The call `std::to_string((uint32_t)x)`: the decimal digits of `x` reduced to 32 bits. -/
def to_string_uint32 (x : Int) : CppString :=
  (Nat.repr (x % 2 ^ 32).toNat).toList

/-! ## Data model -/

/-- Error codes of the driver, as the source names them (`RAK3172_ERR_...`). -/
inductive RAK3172_Error_t where
  | RAK3172_ERR_OK
  | RAK3172_ERR_INVALID_ARG
  | RAK3172_ERR_INVALID_STATE
  | RAK3172_ERR_NO_MEM
  | RAK3172_ERR_TIMEOUT
  | RAK3172_ERR_FAIL
  | RAK3172_ERR_INVALID_RESPONSE
  deriving DecidableEq, Repr

export RAK3172_Error_t (RAK3172_ERR_OK RAK3172_ERR_INVALID_ARG RAK3172_ERR_INVALID_STATE
  RAK3172_ERR_NO_MEM RAK3172_ERR_TIMEOUT RAK3172_ERR_FAIL RAK3172_ERR_INVALID_RESPONSE)

/-- The enumeration `RAK3172_Mode_t`, as its integer value. -/
abbrev RAK3172_Mode_t := Int

/-- The enumeration `RAK3172_Baud_t`, as its integer value. -/
abbrev RAK3172_Baud_t := Int

/-- The member `Internal` of the device object. -/
structure RAK3172_Internal where
  /-- Lines held by the receive queue, oldest first. -/
  RxQueue : List CppString
  /-- The scratch receive buffer: `none` is `NULL`, otherwise its bytes. -/
  RxBuffer : Option (List Char)
  /-- Handle of the receive task: `none` is `NULL`. -/
  Handle : Option Nat
  isInitialized : Bool
  isBusy : Bool
  deriving DecidableEq, Repr

/-- The device object `RAK3172_t`. -/
structure RAK3172_t where
  Interface : Nat
  Rx : Nat
  Tx : Nat
  Reset : Nat
  Baudrate : RAK3172_Baud_t
  Mode : RAK3172_Mode_t
  Firmware : CppString
  Serial : CppString
  Internal : RAK3172_Internal
  deriving DecidableEq, Repr

/-- Calls that manage a resource outside the device object. -/
inductive Op where
  | esp_log_level_set
  | gpio_config (pin_bit_mask : Nat) (pull_up_en pull_down_en : Bool)
  | gpio_set_level (pin : Nat) (level : Bool)
  | uart_driver_install
  | uart_param_config (baud_rate : Int)
  | uart_set_pin (tx rx : Nat)
  | uart_enable_pattern_det_baud_intr
  | uart_pattern_queue_reset
  | uart_flush
  | uart_disable_pattern_det_intr
  | uart_driver_delete
  | xQueueCreate
  | vQueueDelete
  | malloc
  | free
  | xTaskCreate
  | xTaskCreatePinnedToCore
  | vTaskSuspend
  | vTaskDelete
  | vTaskDelay
  deriving DecidableEq, Repr

/-- The device object together with the part of the platform the driver acts on. -/
structure Sys where
  Device : RAK3172_t
  /-- Bytes written to the serial link so far. -/
  Wire : List Char
  /-- Resource calls made so far, in call order. -/
  Ops : List Op
  /-- What `uart_is_driver_installed` answers. -/
  DriverInstalled : Bool
  deriving DecidableEq, Repr

/-- A device pointer `RAK3172_t*`: `NULL`, or the address of `Sys.Device`. -/
inductive DevicePtr where
  | null
  | device
  deriving DecidableEq, Repr

/-- The compile-time switches of the driver. -/
structure Config where
  /-- Switch `CONFIG_RAK3172_USE_RUI3`: the RUI3 firmware (`false`: legacy firmware). -/
  USE_RUI3 : Bool
  /-- Switch `CONFIG_RAK3172_RESET_USE_HW`. -/
  RESET_USE_HW : Bool
  /-- Switch `CONFIG_RAK3172_RESET_USE_PULL`. -/
  RESET_USE_PULL : Bool
  /-- Switch `CONFIG_RAK3172_RESET_INVERT`. -/
  RESET_INVERT : Bool
  /-- Switch `CONFIG_RAK3172_TASK_CORE_AFFINITY`. -/
  TASK_CORE_AFFINITY : Bool
  deriving DecidableEq, Repr

/-- How a call of a driver function ends. -/
inductive Outcome where
  | returns (e : RAK3172_Error_t)
  | throws (x : CppException)
  /-- The call has run into undefined behaviour; nothing is known from there on. -/
  | undefined
  deriving DecidableEq, Repr

/-- End of a call without output parameter. -/
structure Result where
  Error : Outcome
  Sys : Sys
  deriving DecidableEq, Repr

/-- End of `RAK3172_SendCommand`: `Value` and `Status` are the strings behind
`p_Value` and `p_Status` after the call (`none` for a `NULL` pointer). -/
structure SendResult where
  Error : Outcome
  Sys : Sys
  Value : Option CppString
  Status : Option CppString
  deriving DecidableEq, Repr

/-- End of a call with one output parameter; `Out` is the object behind the
pointer after the call (`none` for a `NULL` pointer). -/
structure OutResult (α : Type) where
  Error : Outcome
  Sys : Sys
  Out : Option α

/-! ## Platform primitives -/

/-- The call `uart_write_bytes(Interface, data, len)`. -/
def uart_write_bytes (s : Sys) (data : CppString) : Sys :=
  { s with Wire := s.Wire ++ data }

/-- The call `xQueueReceive(Internal.RxQueue, &Response, timeout)`: the oldest line and
the state without it, or `none` when the timeout elapses with no line in the queue. -/
def xQueueReceive (s : Sys) : Option (CppString × Sys) :=
  match s.Device.Internal.RxQueue with
  | [] => none
  | line :: rest => some (line, { s with Device.Internal.RxQueue := rest })

/-- Record a resource call. -/
def call (s : Sys) (op : Op) : Sys :=
  { s with Ops := s.Ops ++ [op] }

/-! ## `RAK3172_SendCommand` -/

/-- Lines 518 to 541 of `rak3172.cpp`: receive and classify the trailing status line. -/
def RAK3172_SendCommand_status (s : Sys) (Value p_Status : Option CppString) : SendResult :=
  match xQueueReceive s with
  | none => ⟨.returns RAK3172_ERR_TIMEOUT, s, Value, p_Status⟩
  | some (Response, s1) =>
    let Error :=
      if (find Response "OK".toList).isNone && (find Response "+EVT".toList).isNone
      then RAK3172_ERR_FAIL else RAK3172_ERR_OK
    ⟨.returns Error, s1, Value, p_Status.map (fun _ => Response)⟩

/-- Lines 509 to 516 of `rak3172.cpp`: with the legacy firmware, receive the line feed
that precedes the status; then the status. -/
def RAK3172_SendCommand_linefeed (cfg : Config) (s : Sys) (Value p_Status : Option CppString) :
    SendResult :=
  if cfg.USE_RUI3 then RAK3172_SendCommand_status s Value p_Status
  else
    match xQueueReceive s with
    | none => ⟨.returns RAK3172_ERR_TIMEOUT, s, Value, p_Status⟩
    | some (_, s1) => RAK3172_SendCommand_status s1 Value p_Status

/-- The function `RAK3172_SendCommand` (`rak3172.cpp`, lines 462 to 542). -/
def RAK3172_SendCommand (cfg : Config) (s : Sys) (p_Device : DevicePtr) (Command : CppString)
    (p_Value p_Status : Option CppString) : SendResult :=
  match p_Device with
  | .null => ⟨.returns RAK3172_ERR_INVALID_ARG, s, p_Value, p_Status⟩
  | .device =>
    if s.Device.Internal.isBusy then ⟨.returns RAK3172_ERR_FAIL, s, p_Value, p_Status⟩
    else if s.Device.Internal.isInitialized == false then
      ⟨.returns RAK3172_ERR_INVALID_STATE, s, p_Value, p_Status⟩
    else
      -- Transmit the command.
      let s1 := uart_write_bytes (uart_write_bytes s Command) "\r\n".toList
      -- Copy the value if needed.
      match p_Value with
      | none => RAK3172_SendCommand_linefeed cfg s1 none p_Status
      | some _ =>
        match xQueueReceive s1 with
        | none => ⟨.returns RAK3172_ERR_TIMEOUT, s1, p_Value, p_Status⟩
        | some (Response, s2) =>
          if cfg.USE_RUI3 then
            -- Remove the command from the response.
            match substr Response ((size_t_of_find (find Response "=".toList) + 1) % 2 ^ 32) with
            | .error x => ⟨.throws x, s2, p_Value, p_Status⟩
            | .ok Response1 => RAK3172_SendCommand_linefeed cfg s2 (some Response1) p_Status
          else RAK3172_SendCommand_linefeed cfg s2 (some Response) p_Status

/-- Modelled from the spec: the macro `RAK3172_ERROR_CHECK` of the header `rak3172.h`,
which is not part of the sources at hand. Errors are handed to the immediate caller as
typed results: when the checked call does not end with `RAK3172_ERR_OK` the enclosing
function ends at once in the same way (`some`), otherwise it goes on (`none`). -/
def RAK3172_ERROR_CHECK (e : Outcome) : Option Outcome :=
  if e = .returns RAK3172_ERR_OK then none else some e

/-! ## Reset -/

/-- Test of line 437 of `rak3172.cpp`: the line holds one of the two splash texts. -/
def isSplash (Response : CppString) : Bool :=
  (find Response "LoRaWAN.".toList).isSome || (find Response "LoRa P2P.".toList).isSome

/-- The loop of lines 428 to 443 of `rak3172.cpp`, run on the queue content `q` of the
state: each round receives the oldest line, and stops on a timeout or on a splash line. -/
def RAK3172_SoftReset_loop (s : Sys) : List CppString → Result
  | [] => ⟨.returns RAK3172_ERR_TIMEOUT, { s with Device.Internal.RxQueue := [] }⟩
  | Response :: q =>
    if isSplash Response then ⟨.returns RAK3172_ERR_OK, { s with Device.Internal.RxQueue := q }⟩
    else RAK3172_SoftReset_loop s q

/-- The function `RAK3172_SoftReset` (`rak3172.cpp`, lines 407 to 448). In this model of
the queue the argument `Timeout` does not change which receive fails. -/
def RAK3172_SoftReset (s : Sys) (p_Device : DevicePtr) (Timeout : Nat) : Result :=
  match p_Device with
  | .null => ⟨.returns RAK3172_ERR_INVALID_ARG, s⟩
  | .device =>
    if s.Device.Internal.isInitialized == false then ⟨.returns RAK3172_ERR_INVALID_STATE, s⟩
    else
      let _ := Timeout
      let s1 := uart_write_bytes s "ATZ\r\n".toList
      RAK3172_SoftReset_loop s1 s1.Device.Internal.RxQueue

/-- The function `RAK3172_HardReset` (`rak3172.cpp`, lines 451 to 459). -/
def RAK3172_HardReset (s : Sys) (p_Device : DevicePtr) : Result :=
  match p_Device with
  | .null => ⟨.returns RAK3172_ERR_INVALID_ARG, s⟩
  | .device => ⟨.returns RAK3172_ERR_OK, s⟩

/-! ## Parameter operations -/

/-- Copy the result of a `RAK3172_SendCommand` that asked for the value only. -/
def SendResult.toOut (r : SendResult) : OutResult CppString :=
  ⟨r.Error, r.Sys, r.Value⟩

/-- The function `RAK3172_GetFWVersion` (`rak3172.cpp`, lines 544 to 552). -/
def RAK3172_GetFWVersion (cfg : Config) (s : Sys) (p_Device : DevicePtr)
    (p_Version : Option CppString) : OutResult CppString :=
  match p_Version with
  | none => ⟨.returns RAK3172_ERR_INVALID_ARG, s, none⟩
  | some _ => (RAK3172_SendCommand cfg s p_Device "AT+VER=?".toList p_Version none).toOut

/-- The function `RAK3172_GetSerialNumber` (`rak3172.cpp`, lines 554 to 562). -/
def RAK3172_GetSerialNumber (cfg : Config) (s : Sys) (p_Device : DevicePtr)
    (p_Serial : Option CppString) : OutResult CppString :=
  match p_Serial with
  | none => ⟨.returns RAK3172_ERR_INVALID_ARG, s, none⟩
  | some _ => (RAK3172_SendCommand cfg s p_Device "AT+SN=?".toList p_Serial none).toOut

/-- Common body of the integer queries: `RAK3172_ERROR_CHECK(RAK3172_SendCommand(p_Device,
Command, &Value, NULL)); *p_Out = std::stoi(Value); return RAK3172_ERR_OK;` with the
local `std::string Value`. -/
def queryInt (cfg : Config) (s : Sys) (p_Device : DevicePtr) (Command : CppString)
    (p_Out : Option Int) : OutResult Int :=
  let r := RAK3172_SendCommand cfg s p_Device Command (some []) none
  match RAK3172_ERROR_CHECK r.Error with
  | some e => ⟨e, r.Sys, p_Out⟩
  | none =>
    match stoi (r.Value.getD []) with
    | .error x => ⟨.throws x, r.Sys, p_Out⟩
    | .ok n => ⟨.returns RAK3172_ERR_OK, r.Sys, p_Out.map (fun _ => n)⟩

/-- The function `RAK3172_GetRSSI` (`rak3172.cpp`, lines 564 to 578). -/
def RAK3172_GetRSSI (cfg : Config) (s : Sys) (p_Device : DevicePtr) (p_RSSI : Option Int) :
    OutResult Int :=
  match p_RSSI with
  | none => ⟨.returns RAK3172_ERR_INVALID_ARG, s, none⟩
  | some _ => queryInt cfg s p_Device "AT+RSSI=?".toList p_RSSI

/-- The function `RAK3172_GetSNR` (`rak3172.cpp`, lines 580 to 594). -/
def RAK3172_GetSNR (cfg : Config) (s : Sys) (p_Device : DevicePtr) (p_SNR : Option Int) :
    OutResult Int :=
  match p_SNR with
  | none => ⟨.returns RAK3172_ERR_INVALID_ARG, s, none⟩
  | some _ => queryInt cfg s p_Device "AT+SNR=?".toList p_SNR

/-- The loop of lines 639 to 647 of `rak3172.cpp`, run on the queue content `q` of the
state: lines are received and dropped until a receive times out. -/
def RAK3172_SetMode_loop (s : Sys) : List CppString → Sys
  | [] => { s with Device.Internal.RxQueue := [] }
  | _ :: q => RAK3172_SetMode_loop s q

/-- Lines 623 to 649 of `rak3172.cpp`: the status line of `RAK3172_SetMode` and what
follows it. -/
def RAK3172_SetMode_status (s : Sys) : Result :=
  match xQueueReceive s with
  | none => ⟨.returns RAK3172_ERR_TIMEOUT, s⟩
  | some (Response, s1) =>
    -- 'OK' received, so the mode was not changed. Leave the function.
    if (find Response "OK".toList).isSome then ⟨.returns RAK3172_ERR_OK, s1⟩
    -- Wait for the splash screen and get the data.
    else ⟨.returns RAK3172_ERR_OK, RAK3172_SetMode_loop s1 s1.Device.Internal.RxQueue⟩

/-- The function `RAK3172_SetMode` (`rak3172.cpp`, lines 596 to 650). -/
def RAK3172_SetMode (cfg : Config) (s : Sys) (p_Device : DevicePtr) (Mode : RAK3172_Mode_t) :
    Result :=
  match p_Device with
  | .null => ⟨.returns RAK3172_ERR_INVALID_ARG, s⟩
  | .device =>
    if s.Device.Internal.isInitialized == false then ⟨.returns RAK3172_ERR_INVALID_RESPONSE, s⟩
    else
      -- Transmit the command.
      let s1 := uart_write_bytes s ("AT+NWM=".toList ++ to_string_uint32 Mode ++ "\r\n".toList)
      if cfg.USE_RUI3 then RAK3172_SetMode_status s1
      else
        -- Receive the line feed before the status.
        match xQueueReceive s1 with
        | none => ⟨.returns RAK3172_ERR_TIMEOUT, s1⟩
        | some (_, s2) => RAK3172_SetMode_status s2

/-- The function `RAK3172_GetMode` (`rak3172.cpp`, lines 652 to 661). -/
def RAK3172_GetMode (cfg : Config) (s : Sys) (p_Device : DevicePtr) : Result :=
  let r := RAK3172_SendCommand cfg s p_Device "AT+NWM=?".toList (some []) none
  match RAK3172_ERROR_CHECK r.Error with
  | some e => ⟨e, r.Sys⟩
  | none =>
    match stoi (r.Value.getD []) with
    | .error x => ⟨.throws x, r.Sys⟩
    | .ok n => ⟨.returns RAK3172_ERR_OK, { r.Sys with Device.Mode := n }⟩

/-- The function `RAK3172_SetBaud` (`rak3172.cpp`, lines 663 to 671). -/
def RAK3172_SetBaud (cfg : Config) (s : Sys) (p_Device : DevicePtr) (Baud : RAK3172_Baud_t) :
    SendResult :=
  if s.Device.Baudrate = Baud then ⟨.returns RAK3172_ERR_OK, s, none, none⟩
  else RAK3172_SendCommand cfg s p_Device ("AT+BAUD=".toList ++ to_string_uint32 Baud) none none

/-- The function `RAK3172_GetBaud` (`rak3172.cpp`, lines 673 to 682). -/
def RAK3172_GetBaud (cfg : Config) (s : Sys) (p_Device : DevicePtr)
    (p_Baud : Option RAK3172_Baud_t) : OutResult RAK3172_Baud_t :=
  queryInt cfg s p_Device "AT+BAUD=?".toList p_Baud

/-! ## Lifecycle -/

/-- The loop of lines 380 to 390 of `rak3172.cpp`, run on the queue content `q` of the
state: queued lines are received and released until a receive times out. -/
def RAK3172_Deinit_loop (s : Sys) : List CppString → Sys
  | [] => { s with Device.Internal.RxQueue := [] }
  | _ :: q => RAK3172_Deinit_loop s q

/-- The mask `(1ULL << a) | (1ULL << b)` of 64 bits. -/
def pinMask (a b : Nat) : Nat := ((1 <<< a) ||| (1 <<< b)) % 2 ^ 64

/-- The function `RAK3172_Deinit` (`rak3172.cpp`, lines 359 to 405); it has no
`NULL` check, `p_Device` is the device of the state. -/
def RAK3172_Deinit (s : Sys) : Sys :=
  if s.Device.Internal.isInitialized == false then s
  else
    let s1 := call s .free
    let s2 := { s1 with Device.Internal.RxBuffer := none }
    let s3 := call (call s2 .vTaskSuspend) .vTaskDelete
    let s4 :=
      if s3.DriverInstalled then
        { call (call (call s3 .uart_flush) .uart_disable_pattern_det_intr) .uart_driver_delete
          with DriverInstalled := false }
      else s3
    -- Clear the queue.
    let s5 := RAK3172_Deinit_loop s4 s4.Device.Internal.RxQueue
    let s6 := call s5 .vQueueDelete
    let s7 := call s6 (.gpio_config (pinMask s6.Device.Rx s6.Device.Tx) false false)
    call (call s7 (.gpio_set_level s7.Device.Rx true)) (.gpio_set_level s7.Device.Tx false)

/-- What the platform answers while `RAK3172_Init` runs. -/
structure InitEnv where
  gpio_config_ok : Bool
  uart_driver_install_ok : Bool
  uart_param_config_ok : Bool
  uart_set_pin_ok : Bool
  uart_enable_pattern_det_baud_intr_ok : Bool
  uart_pattern_queue_reset_ok : Bool
  uart_flush_ok : Bool
  xQueueCreate_ok : Bool
  malloc_ok : Bool
  /-- Handle stored by `xTaskCreate`; `none` when the task cannot be created, and the
  handle of the device is then left as it was. -/
  xTaskCreate_handle : Option Nat
  /-- Lines the module sends while `RAK3172_Init` runs, in order of arrival. -/
  Lines : List CppString
  /-- The default argument `Timeout` of `RAK3172_SoftReset` (declared in the header). -/
  SoftResetTimeout : Nat
  deriving DecidableEq, Repr

/-- Lines 226 to 230 of `rak3172.cpp`: the chain of `||` over the UART set-up calls; a
call is made only when all calls before it succeeded. The result tells whether one
of them failed. -/
def RAK3172_Init_uart (env : InitEnv) (s : Sys) : Bool × Sys :=
  let s1 := { call s .uart_driver_install with DriverInstalled := env.uart_driver_install_ok }
  if !env.uart_driver_install_ok then (true, s1) else
  let s2 := call s1 (.uart_param_config s.Device.Baudrate)
  if !env.uart_param_config_ok then (true, s2) else
  let s3 := call s2 (.uart_set_pin s.Device.Tx s.Device.Rx)
  if !env.uart_set_pin_ok then (true, s3) else
  let s4 := call s3 .uart_enable_pattern_det_baud_intr
  if !env.uart_enable_pattern_det_baud_intr_ok then (true, s4) else
  let s5 := call s4 .uart_pattern_queue_reset
  (!env.uart_pattern_queue_reset_ok, s5)

/-- The label `RAK3172_Init_Error` (`rak3172.cpp`, lines 352 to 356). -/
def RAK3172_Init_Error (s : Sys) (Error : Outcome) : Result :=
  ⟨Error, { call s .free with Device.Internal.isInitialized := false }⟩

/-- Lines 332 to 350 of `rak3172.cpp`: the queries for firmware version, serial number
and mode. A call that ends with an exception is not caught, so the exception leaves
`RAK3172_Init` as well. -/
def RAK3172_Init_queries (cfg : Config) (s : Sys) : Result :=
  let r1 := RAK3172_GetFWVersion cfg s .device (some s.Device.Firmware)
  let s1 : Sys := { r1.Sys with Device.Firmware := r1.Out.getD s.Device.Firmware }
  match r1.Error with
  | .throws x => ⟨.throws x, s1⟩
  | .undefined => ⟨.undefined, s1⟩
  | .returns e1 =>
    if e1 ≠ RAK3172_ERR_OK then RAK3172_Init_Error s1 (.returns e1) else
    let r2 := RAK3172_GetSerialNumber cfg s1 .device (some s1.Device.Serial)
    let s2 : Sys := { r2.Sys with Device.Serial := r2.Out.getD s1.Device.Serial }
    match r2.Error with
    | .throws x => ⟨.throws x, s2⟩
    | .undefined => ⟨.undefined, s2⟩
    | .returns e2 =>
      if e2 ≠ RAK3172_ERR_OK then RAK3172_Init_Error s2 (.returns e2) else
      let r3 := RAK3172_GetMode cfg s2 .device
      match r3.Error with
      | .throws x => ⟨.throws x, r3.Sys⟩
      | .undefined => ⟨.undefined, r3.Sys⟩
      | .returns e3 =>
        if e3 ≠ RAK3172_ERR_OK then RAK3172_Init_Error r3.Sys (.returns e3)
        else ⟨.returns RAK3172_ERR_OK, r3.Sys⟩

/-- Lines 288 to 329 of `rak3172.cpp`: echo mode is on, the echoed lines are received.
The returns of this block do not pass through `RAK3172_Init_Error`. When the last line
has been received, line 323 runs `delete Dummy` and line 326 then calls `Dummy->find`:
the string is used after it was released, so the behaviour is undefined from there on
(the returns of lines 328 and 332 to 350 are not reached in a defined way). -/
def RAK3172_Init_echo (cfg : Config) (s : Sys) : Result :=
  -- Echo mode is enabled. Need to receive one more line.
  match xQueueReceive s with
  | none => ⟨.returns RAK3172_ERR_TIMEOUT, s⟩
  | some (_, s1) =>
    -- Disable echo mode.
    let s2 := uart_write_bytes s1 "ATE\r\n".toList
    match xQueueReceive s2 with
    | none => ⟨.returns RAK3172_ERR_TIMEOUT, s2⟩
    | some (_, s3) =>
      match (if cfg.USE_RUI3 then some s3 else (xQueueReceive s3).map Prod.snd) with
      | none => ⟨.returns RAK3172_ERR_TIMEOUT, s3⟩
      | some s4 =>
        match xQueueReceive s4 with
        | none => ⟨.returns RAK3172_ERR_TIMEOUT, s4⟩
        | some (_, s5) =>
          -- `delete Dummy;` and then `Dummy->find("OK")`: use after release.
          ⟨.undefined, s5⟩

/-- Lines 283 to 350 of `rak3172.cpp`: the probe for echo mode and what follows it. -/
def RAK3172_Init_probe (cfg : Config) (s : Sys) : Result :=
  -- Check if echo mode is enabled.
  let r := RAK3172_SendCommand cfg s .device "AT".toList none (some [])
  match RAK3172_ERROR_CHECK r.Error with
  | some e => ⟨e, r.Sys⟩
  | none =>
    if (find (r.Status.getD []) "OK".toList).isNone then RAK3172_Init_echo cfg r.Sys
    else RAK3172_Init_queries cfg r.Sys

/-- Lines 240 to 350 of `rak3172.cpp`: from the creation of the receive queue on. -/
def RAK3172_Init_start (cfg : Config) (env : InitEnv) (s : Sys) : Result :=
  let s1 : Sys :=
    { call s .xQueueCreate with
      Device.Internal.RxQueue := if env.xQueueCreate_ok then env.Lines else [] }
  if !env.xQueueCreate_ok then ⟨.returns RAK3172_ERR_NO_MEM, s1⟩ else
  let s2 : Sys :=
    { call s1 .malloc with
      Device.Internal.RxBuffer := if env.malloc_ok then some [] else none }
  if s2.Device.Internal.RxBuffer = none then ⟨.returns RAK3172_ERR_NO_MEM, s2⟩ else
  let s3 : Sys :=
    { call s2 (if cfg.TASK_CORE_AFFINITY then .xTaskCreatePinnedToCore else .xTaskCreate) with
      Device.Internal.Handle :=
        match env.xTaskCreate_handle with
        | some h => some h
        | none => s2.Device.Internal.Handle }
  if s3.Device.Internal.Handle = none then
    RAK3172_Init_Error s3 (.returns RAK3172_ERR_INVALID_STATE)
  else
  let s4 : Sys := { s3 with Device.Internal.isInitialized := true }
  let rh : Result :=
    if cfg.RESET_USE_HW then RAK3172_HardReset s4 .device else ⟨.returns RAK3172_ERR_OK, s4⟩
  if rh.Error ≠ .returns RAK3172_ERR_OK then RAK3172_Init_Error rh.Sys rh.Error else
  let rs := RAK3172_SoftReset rh.Sys .device env.SoftResetTimeout
  if rs.Error ≠ .returns RAK3172_ERR_OK then RAK3172_Init_Error rs.Sys rs.Error else
  RAK3172_Init_probe cfg (call rs.Sys .vTaskDelay)

/-- Lines 187 to 224 of `rak3172.cpp`: set-up of the reset pin when the hardware reset
is used. The result tells whether `gpio_config` failed. -/
def RAK3172_Init_reset_pin (cfg : Config) (env : InitEnv) (s : Sys) : Bool × Sys :=
  if cfg.RESET_USE_HW then
    let s1 := call s (.gpio_config ((1 <<< s.Device.Reset) % 2 ^ 64)
      (cfg.RESET_USE_PULL && !cfg.RESET_INVERT) (cfg.RESET_USE_PULL && cfg.RESET_INVERT))
    if !env.gpio_config_ok then (true, s1)
    else if cfg.RESET_USE_PULL then
      (false, call s1 (.gpio_set_level s.Device.Reset (!cfg.RESET_INVERT)))
    else (false, s1)
  else (false, s)

/-- The function `RAK3172_Init` (`rak3172.cpp`, lines 149 to 357). -/
def RAK3172_Init (cfg : Config) (env : InitEnv) (s : Sys) (p_Device : DevicePtr) : Result :=
  match p_Device with
  | .null => ⟨.returns RAK3172_ERR_INVALID_ARG, s⟩
  | .device =>
    let s1 : Sys := call { s with Device.Internal.isInitialized := false } .esp_log_level_set
    let (failed, s2) := RAK3172_Init_reset_pin cfg env s1
    if failed then ⟨.returns RAK3172_ERR_INVALID_STATE, s2⟩ else
    let (failed, s3) := RAK3172_Init_uart env s2
    if failed then ⟨.returns RAK3172_ERR_INVALID_STATE, s3⟩ else
    let s4 := call s3 .uart_flush
    if !env.uart_flush_ok then ⟨.returns RAK3172_ERR_INVALID_STATE, s4⟩ else
    RAK3172_Init_start cfg env s4

/-! ## Sample states -/

/-- A device with the given flags and queued lines. -/
def sampleDevice (isInitialized isBusy : Bool) (q : List CppString) : RAK3172_t :=
  { Interface := 1, Rx := 16, Tx := 17, Reset := 4, Baudrate := 115200, Mode := 0,
    Firmware := [], Serial := [],
    Internal := { RxQueue := q, RxBuffer := some [], Handle := some 1,
                  isInitialized := isInitialized, isBusy := isBusy } }

/-- A state around `sampleDevice` with nothing transmitted so far. -/
def sampleSys (isInitialized isBusy : Bool) (q : List CppString) : Sys :=
  { Device := sampleDevice isInitialized isBusy q, Wire := [], Ops := [], DriverInstalled := true }

/-- A build for the RUI3 firmware with software reset. -/
def rui3 : Config :=
  { USE_RUI3 := true, RESET_USE_HW := false, RESET_USE_PULL := false, RESET_INVERT := false,
    TASK_CORE_AFFINITY := false }

/-- A build for the legacy firmware with software reset. -/
def legacy : Config :=
  { USE_RUI3 := false, RESET_USE_HW := false, RESET_USE_PULL := false, RESET_INVERT := false,
    TASK_CORE_AFFINITY := false }

/-- Number of lines a completed `RAK3172_SendCommand` takes from the queue according to
the specification: one when a value is asked for, one more with the legacy firmware,
and one for the status line. -/
def linesOfCommand (cfg : Config) (p_Value : Option CppString) : Nat :=
  (if p_Value.isSome then 1 else 0) + (if cfg.USE_RUI3 then 0 else 1) + 1

/-- A line that holds one of the two boot banners of the module. -/
def hasSplash (line : CppString) : Prop :=
  "LoRaWAN.".toList <:+: line ∨ "LoRa P2P.".toList <:+: line

instance (line : CppString) : Decidable (hasSplash line) := by
  unfold hasSplash
  infer_instance

/-- The decimal text of an integer: a minus sign for a negative number, then the
decimal digits of its absolute value. -/
def decimalText (n : Int) : CppString :=
  (if n < 0 then ['-'] else []) ++ Nat.toDigits 10 n.natAbs

deriving instance DecidableEq for Except

/-- A platform on which every set-up call of `RAK3172_Init` succeeds, with the lines
the module sends. -/
def sampleEnv (lines : List CppString) : InitEnv :=
  { gpio_config_ok := true, uart_driver_install_ok := true, uart_param_config_ok := true,
    uart_set_pin_ok := true, uart_enable_pattern_det_baud_intr_ok := true,
    uart_pattern_queue_reset_ok := true, uart_flush_ok := true, xQueueCreate_ok := true,
    malloc_ok := true, xTaskCreate_handle := some 7, Lines := lines, SoftResetTimeout := 10 }

/-! ## The receive task -/

/-- The sizes `CONFIG_RAK3172_TASK_BUFFER_SIZE` and `CONFIG_RAK3172_TASK_QUEUE_LENGTH`
(`rak3172.cpp`, lines 40 to 46). -/
structure TaskConfig where
  /-- Bytes of the scratch buffer `Internal.RxBuffer`. -/
  TASK_BUFFER_SIZE : Nat
  /-- Lines that the receive queue `Internal.RxQueue` can hold. -/
  TASK_QUEUE_LENGTH : Nat
  deriving DecidableEq, Repr

/-- The sizes that the source sets when `sdkconfig` gives none. -/
def defaultTaskConfig : TaskConfig :=
  { TASK_BUFFER_SIZE := 1024, TASK_QUEUE_LENGTH := 8 }

/-- The kinds of UART event that the receive task tells apart. -/
inductive uart_event_type_t where
  | UART_PATTERN_DET
  | UART_OTHER
  deriving DecidableEq, Repr

/-- The call `xQueueSend(Internal.RxQueue, &Response, 0)`: the line is put behind the
queued lines when the queue has room; a full queue stays as it is and the call comes
back at once. -/
def xQueueSend (tc : TaskConfig) (s : Sys) (Response : CppString) : Sys :=
  if s.Device.Internal.RxQueue.length < tc.TASK_QUEUE_LENGTH then
    { s with Device.Internal.RxQueue := s.Device.Internal.RxQueue ++ [Response] }
  else s

/-- The loop of lines 118 to 126 of `rak3172.cpp`: the bytes `RxBuffer[0]` to
`RxBuffer[PatternPos - 1]` are appended to the new string, except '\n' and '\r'. A
byte of the buffer that the model does not know is left out. -/
def RAK3172_UART_EventTask_copy (RxBuffer : List Char) (PatternPos : Nat) : CppString :=
  (List.range PatternPos).foldl
    (fun Response i =>
      match RxBuffer[i]? with
      | some Character =>
        if Character ≠ '\n' ∧ Character ≠ '\r' then Response ++ [Character] else Response
      | none => Response)
    []

/-- One round of the loop of `RAK3172_UART_EventTask` (`rak3172.cpp`, lines 88 to 140)
for an event of the given kind. `Buffered` holds the bytes received and not yet read,
`pos` is what `uart_pattern_pop_pos` returns. The result is the new state with the
bytes still to read; it is `none` where the behaviour is undefined: the scratch
buffer is `NULL`, or more bytes are read than it can hold. -/
def RAK3172_UART_EventTask_step (tc : TaskConfig) (s : Sys) (Buffered : List Char)
    (type : uart_event_type_t) (pos : Int) : Option (Sys × List Char) :=
  match type with
  | .UART_PATTERN_DET =>
    -- uint32_t PatternPos = uart_pattern_pop_pos(...)
    let PatternPos : Nat := (pos % 2 ^ 32).toNat
    if PatternPos = 2 ^ 32 - 1 then
      -- uart_flush_input
      some (s, [])
    else
      match s.Device.Internal.RxBuffer with
      | none => none
      | some RxBuffer =>
        if tc.TASK_BUFFER_SIZE < PatternPos then none
        else
          -- uart_read_bytes
          let read := Buffered.take PatternPos
          let RxBuffer1 := read ++ RxBuffer.drop read.length
          let s1 : Sys := { s with Device.Internal.RxBuffer := some RxBuffer1 }
          let Response := RAK3172_UART_EventTask_copy RxBuffer1 PatternPos
          some (xQueueSend tc s1 Response, Buffered.drop PatternPos)
  | .UART_OTHER => some (s, Buffered)

/-- The text `V` reads as a number: white space, at most one sign, the non-empty run
of digits `ds`, and then `rest`, which does not start with a digit; `neg` tells
whether the sign is a minus. -/
def readsNumber (V : CppString) (neg : Bool) (ds rest : List Char) : Prop :=
  ∃ ws sign : List Char, V = ws ++ (sign ++ (ds ++ rest)) ∧ (∀ c ∈ ws, isspace c = true) ∧
    ((sign = [] ∧ neg = false) ∨ (sign = ['+'] ∧ neg = false) ∨ (sign = ['-'] ∧ neg = true)) ∧
    ds ≠ [] ∧ (∀ c ∈ ds, c.isDigit = true) ∧ (∀ c ∈ rest.head?, c.isDigit = false)

/-- The number that a sign and a run of digits stand for. -/
def numberValue (neg : Bool) (ds : List Char) : Int :=
  if neg then -(digitsValue ds : Int) else (digitsValue ds : Int)

/-! ## Facts on `std::string` -/

theorem find_from_isSome_iff (pat s : CppString) (i : Nat) :
    (find_from pat s i).isSome ↔ pat <:+: s := by
  induction s generalizing i with
  | nil => simp [find_from, List.infix_nil]
  | cons c t ih =>
    rw [find_from, List.infix_cons_iff]
    by_cases h : pat.isPrefixOf (c :: t) = true
    · simp [h, List.isPrefixOf_iff_prefix.mp h]
    · have h2 : ¬ pat <+: c :: t := fun hp => h (List.isPrefixOf_iff_prefix.mpr hp)
      simp [h, h2, ih]

/-- The test `s.find(pat) != npos` holds exactly when `pat` occurs in `s`. -/
theorem find_isSome_iff (s pat : CppString) : (find s pat).isSome ↔ pat <:+: s :=
  find_from_isSome_iff pat s 0

/-- The test `s.find(pat) == npos` holds exactly when `pat` does not occur in `s`. -/
theorem find_isNone_iff (s pat : CppString) : (find s pat).isNone ↔ ¬ pat <:+: s := by
  rw [← find_isSome_iff]; cases find s pat <;> simp

theorem find_eq_none_iff (s pat : CppString) : find s pat = none ↔ ¬ pat <:+: s := by
  rw [← find_isNone_iff]; cases find s pat <;> simp

theorem find_from_lt (pat s : CppString) (i j : Nat) (hpat : pat ≠ [])
    (h : find_from pat s i = some j) : i ≤ j ∧ j < i + s.length := by
  induction s generalizing i with
  | nil => simp [find_from, hpat] at h
  | cons c t ih =>
    rw [find_from] at h
    split at h
    · simp only [Option.some.injEq] at h
      subst h
      simp
    · have := ih (i + 1) h
      simp only [List.length_cons]
      omega

/-- The position of the first `=` of a line that has one. -/
theorem find_from_eq_sign (pre post : CppString) (i : Nat) (hpre : '=' ∉ pre) :
    find_from ['='] (pre ++ '=' :: post) i = some (i + pre.length) := by
  induction pre generalizing i with
  | nil => simp [find_from, List.isPrefixOf]
  | cons c t ih =>
    have hc : c ≠ '=' := fun h => hpre (by simp [h])
    have ht : '=' ∉ t := fun h => hpre (by simp [h])
    have hp : List.isPrefixOf ['='] (c :: (t ++ '=' :: post)) = false := by
      simp [List.isPrefixOf, Ne.symm hc]
    rw [List.cons_append, find_from, hp, ih (i + 1) ht]
    simp only [List.length_cons, Bool.false_eq_true, if_false]
    congr 1
    omega

/-- A line without `=` gives `npos`. -/
theorem find_eq_sign_none (L : CppString) (h : '=' ∉ L) : find L ['='] = none := by
  rw [find_eq_none_iff]
  intro hin
  exact h (hin.subset (by simp))

/-- The `substr` of `RAK3172_SendCommand` never throws: its offset is at most the length. -/
theorem substr_after_find (L : CppString) :
    substr L ((size_t_of_find (find L "=".toList) + 1) % 2 ^ 32)
      = .ok (L.drop ((size_t_of_find (find L "=".toList) + 1) % 2 ^ 32)) := by
  have hle : (size_t_of_find (find L "=".toList) + 1) % 2 ^ 32 ≤ L.length := by
    cases hf : find L "=".toList with
    | none => simp [size_t_of_find, npos]
    | some j =>
      have := find_from_lt "=".toList L 0 j (by decide) hf
      simp only [size_t_of_find]
      exact le_trans (Nat.mod_le _ _) (by omega)
  unfold substr
  rw [if_neg (Nat.not_lt.mpr hle)]

theorem classify_iff (P Q : Prop) [Decidable P] [Decidable Q] :
    (((if ¬ P ∧ ¬ Q then RAK3172_ERR_FAIL else RAK3172_ERR_OK) = RAK3172_ERR_OK) ↔ (P ∨ Q)) ∧
    (((if ¬ P ∧ ¬ Q then RAK3172_ERR_FAIL else RAK3172_ERR_OK) = RAK3172_ERR_FAIL)
      ↔ (¬ P ∧ ¬ Q)) := by
  by_cases h1 : P <;> by_cases h2 : Q <;> simp [h1, h2]

/-! ## `RAK3172_SendCommand` -/

/-- C1: a `RAK3172_SendCommand` on an initialized device that is not busy and that
does not end with a timeout has returned, and has taken exactly `linesOfCommand` lines
from the receive queue (one for a requested value, one more with the legacy firmware,
one for the status line, whether or not the status text is requested); the queue
afterwards is the queue before without that many leading lines. -/
theorem C1_SendCommand_line_count (cfg : Config) (s : Sys) (Command : CppString)
    (p_Value p_Status : Option CppString)
    (hinit : s.Device.Internal.isInitialized = true)
    (hbusy : s.Device.Internal.isBusy = false)
    (hret : (RAK3172_SendCommand cfg s .device Command p_Value p_Status).Error
      ≠ .returns RAK3172_ERR_TIMEOUT) :
    (∃ e, (RAK3172_SendCommand cfg s .device Command p_Value p_Status).Error = .returns e) ∧
    linesOfCommand cfg p_Value ≤ s.Device.Internal.RxQueue.length ∧
    (RAK3172_SendCommand cfg s .device Command p_Value p_Status).Sys.Device.Internal.RxQueue
      = s.Device.Internal.RxQueue.drop (linesOfCommand cfg p_Value) ∧
    s.Device.Internal.RxQueue
      = s.Device.Internal.RxQueue.take (linesOfCommand cfg p_Value) ++
        (RAK3172_SendCommand cfg s .device Command p_Value
          p_Status).Sys.Device.Internal.RxQueue := by
  obtain ⟨⟨itf, rx, tx, rst, baud, mode, fw, sn, ⟨q, buf, hd, ini, busy⟩⟩, wire, ops, drv⟩ := s
  simp only at hinit hbusy
  subst hinit hbusy
  rcases cfg with ⟨rui, c2, c3, c4, c5⟩
  simp only [RAK3172_SendCommand, substr_after_find] at hret ⊢
  rcases q with _ | ⟨a, _ | ⟨b, _ | ⟨c, q⟩⟩⟩ <;> cases rui <;> cases p_Value <;>
    simp [RAK3172_SendCommand_linefeed, RAK3172_SendCommand_status,
      xQueueReceive, uart_write_bytes, linesOfCommand] at hret ⊢

/-- C1 at a value query of the RUI3 build: of the three queued lines the value line
and the status line are taken, the third line stays. -/
theorem C1_SendCommand_line_count_witness :
    (RAK3172_SendCommand rui3
        (sampleSys true false ["AT+RSSI=-42".toList, "OK".toList, "+EVT:JOINED".toList])
        .device "AT+RSSI=?".toList (some []) none).Error ≠ .returns RAK3172_ERR_TIMEOUT ∧
    (RAK3172_SendCommand rui3
        (sampleSys true false ["AT+RSSI=-42".toList, "OK".toList, "+EVT:JOINED".toList])
        .device "AT+RSSI=?".toList (some []) none).Sys.Device.Internal.RxQueue
      = ["+EVT:JOINED".toList] :=
  ⟨by decide,
   (C1_SendCommand_line_count rui3
      (sampleSys true false ["AT+RSSI=-42".toList, "OK".toList, "+EVT:JOINED".toList])
      "AT+RSSI=?".toList (some []) none rfl rfl (by decide)).2.2.1⟩

/-- C2: when the status line of a `RAK3172_SendCommand` is received (the queue delivers
the lines `pre` that the command takes before it, and then `status`), the call returns
`RAK3172_ERR_OK` exactly when `status` contains "OK" or "+EVT", and `RAK3172_ERR_FAIL`
exactly when it contains neither. -/
theorem C2_SendCommand_status_classification (cfg : Config) (s : Sys) (Command : CppString)
    (p_Value p_Status : Option CppString) (pre rest : List CppString) (status : CppString)
    (hinit : s.Device.Internal.isInitialized = true)
    (hbusy : s.Device.Internal.isBusy = false)
    (hq : s.Device.Internal.RxQueue = pre ++ status :: rest)
    (hpre : pre.length + 1 = linesOfCommand cfg p_Value) :
    ((RAK3172_SendCommand cfg s .device Command p_Value p_Status).Error
        = .returns RAK3172_ERR_OK
      ↔ ("OK".toList <:+: status ∨ "+EVT".toList <:+: status)) ∧
    ((RAK3172_SendCommand cfg s .device Command p_Value p_Status).Error
        = .returns RAK3172_ERR_FAIL
      ↔ (¬ "OK".toList <:+: status ∧ ¬ "+EVT".toList <:+: status)) := by
  obtain ⟨⟨itf, rx, tx, rst, baud, mode, fw, sn, ⟨q, buf, hd, ini, busy⟩⟩, wire, ops, drv⟩ := s
  simp only at hinit hbusy hq
  subst hinit hbusy hq
  rcases cfg with ⟨rui, c2, c3, c4, c5⟩
  simp only [RAK3172_SendCommand, substr_after_find]
  have key := classify_iff ("OK".toList <:+: status) ("+EVT".toList <:+: status)
  cases rui <;> cases p_Value <;>
    simp only [linesOfCommand, Option.isSome_none, Option.isSome_some, Bool.false_eq_true,
      if_true, if_false, Nat.add_left_inj, Nat.zero_add, Nat.add_zero, List.length_eq_zero,
      reduceCtorEq] at hpre <;>
    rcases pre with _ | ⟨a, _ | ⟨b, _ | ⟨c, pre⟩⟩⟩ <;>
    simp at hpre <;>
    simp [RAK3172_SendCommand_linefeed, RAK3172_SendCommand_status,
      xQueueReceive, uart_write_bytes, find_eq_none_iff] <;>
    simpa using key

/-- C2 at a value query of the legacy build answered by a value line, the line feed
and the status "AT_ERROR": the call returns `RAK3172_ERR_FAIL`. -/
theorem C2_SendCommand_status_classification_witness :
    (RAK3172_SendCommand legacy
        (sampleSys true false ["-42".toList, [], "AT_ERROR".toList])
        .device "AT+RSSI=?".toList (some []) none).Error = .returns RAK3172_ERR_FAIL ∧
    ¬ "OK".toList <:+: "AT_ERROR".toList :=
  have h := C2_SendCommand_status_classification legacy
    (sampleSys true false ["-42".toList, [], "AT_ERROR".toList])
    "AT+RSSI=?".toList (some []) none ["-42".toList, []] [] "AT_ERROR".toList rfl rfl rfl rfl
  ⟨by decide, (h.2.mp (by decide)).1⟩

/-- C3 as stated fails: on a busy device `RAK3172_SendCommand` returns
`RAK3172_ERR_FAIL`, the code of a status line without "OK", and no code of its own. -/
theorem C3_busy_kind_counterexample :
    ¬ ((RAK3172_SendCommand rui3 (sampleSys true true ["OK".toList]) .device "AT".toList
        none none).Error ≠ .returns RAK3172_ERR_FAIL) := by
  decide

/-- C3, amended: on a device whose busy flag is set `RAK3172_SendCommand` returns
`RAK3172_ERR_FAIL` at once; the state is as before the call, so nothing is written to
the serial link and no line is taken from the receive queue, and the strings behind
`p_Value` and `p_Status` are untouched. -/
theorem C3_SendCommand_busy (cfg : Config) (s : Sys) (Command : CppString)
    (p_Value p_Status : Option CppString)
    (hbusy : s.Device.Internal.isBusy = true) :
    (RAK3172_SendCommand cfg s .device Command p_Value p_Status).Error
      = .returns RAK3172_ERR_FAIL ∧
    (RAK3172_SendCommand cfg s .device Command p_Value p_Status).Sys = s ∧
    (RAK3172_SendCommand cfg s .device Command p_Value p_Status).Sys.Wire = s.Wire ∧
    (RAK3172_SendCommand cfg s .device Command p_Value p_Status).Sys.Device.Internal.RxQueue
      = s.Device.Internal.RxQueue ∧
    (RAK3172_SendCommand cfg s .device Command p_Value p_Status).Value = p_Value ∧
    (RAK3172_SendCommand cfg s .device Command p_Value p_Status).Status = p_Status := by
  simp [RAK3172_SendCommand, hbusy]

/-- C3, amended, at a busy device with one queued line. -/
theorem C3_SendCommand_busy_witness :
    (sampleSys true true ["OK".toList]).Device.Internal.isBusy = true ∧
    (RAK3172_SendCommand rui3 (sampleSys true true ["OK".toList]) .device "AT".toList
      none none).Sys = sampleSys true true ["OK".toList] :=
  ⟨rfl, (C3_SendCommand_busy rui3 (sampleSys true true ["OK".toList]) "AT".toList
    none none rfl).2.1⟩

/-! ## Calls before initialization -/

/-- Before initialization `RAK3172_SendCommand` returns `RAK3172_ERR_INVALID_STATE` and
leaves the state as it was. -/
theorem SendCommand_not_initialized (cfg : Config) (s : Sys) (Command : CppString)
    (p_Value p_Status : Option CppString)
    (hbusy : s.Device.Internal.isBusy = false)
    (hinit : s.Device.Internal.isInitialized = false) :
    RAK3172_SendCommand cfg s .device Command p_Value p_Status
      = ⟨.returns RAK3172_ERR_INVALID_STATE, s, p_Value, p_Status⟩ := by
  simp [RAK3172_SendCommand, hbusy, hinit]

/-- Before initialization `RAK3172_SoftReset` returns `RAK3172_ERR_INVALID_STATE` and
leaves the state as it was. -/
theorem SoftReset_not_initialized (s : Sys) (Timeout : Nat)
    (hinit : s.Device.Internal.isInitialized = false) :
    RAK3172_SoftReset s .device Timeout = ⟨.returns RAK3172_ERR_INVALID_STATE, s⟩ := by
  simp [RAK3172_SoftReset, hinit]

/-- Before initialization `RAK3172_SetMode` leaves the state as it was, and the code it
returns is `RAK3172_ERR_INVALID_RESPONSE`. -/
theorem SetMode_not_initialized (cfg : Config) (s : Sys) (Mode : RAK3172_Mode_t)
    (hinit : s.Device.Internal.isInitialized = false) :
    RAK3172_SetMode cfg s .device Mode = ⟨.returns RAK3172_ERR_INVALID_RESPONSE, s⟩ := by
  simp [RAK3172_SetMode, hinit]

/-- C4 fails for `RAK3172_SetMode`: on a device that is neither busy nor initialized
`RAK3172_SendCommand` and `RAK3172_SoftReset` return `RAK3172_ERR_INVALID_STATE`, but
`RAK3172_SetMode` returns `RAK3172_ERR_INVALID_RESPONSE`; none of the three changes
the state. -/
theorem C4_SetMode_not_initialized_code :
    (RAK3172_SendCommand rui3 (sampleSys false false []) .device "AT".toList none none).Error
      = .returns RAK3172_ERR_INVALID_STATE ∧
    (RAK3172_SoftReset (sampleSys false false []) .device 10).Error
      = .returns RAK3172_ERR_INVALID_STATE ∧
    (RAK3172_SetMode rui3 (sampleSys false false []) .device 1).Error
      = .returns RAK3172_ERR_INVALID_RESPONSE ∧
    (RAK3172_SetMode rui3 (sampleSys false false []) .device 1).Error
      ≠ .returns RAK3172_ERR_INVALID_STATE ∧
    (RAK3172_SetMode rui3 (sampleSys false false []) .device 1).Sys = sampleSys false false [] := by
  decide

/-! ## `RAK3172_SoftReset` -/

theorem isSplash_iff (line : CppString) : isSplash line = true ↔ hasSplash line := by
  simp only [isSplash, hasSplash, Bool.or_eq_true, find_isSome_iff]

theorem isSplash_false_iff (line : CppString) : isSplash line = false ↔ ¬ hasSplash line := by
  rw [← isSplash_iff]; cases isSplash line <;> simp

/-- The loop of `RAK3172_SoftReset` reads the state only to replace its queue. -/
theorem SoftReset_loop_queue (s : Sys) (q0 q : List CppString) :
    RAK3172_SoftReset_loop { s with Device.Internal.RxQueue := q0 } q
      = RAK3172_SoftReset_loop s q := by
  induction q with
  | nil => rfl
  | cons l q ih => simp only [RAK3172_SoftReset_loop, ih]

/-- One round of the loop of `RAK3172_SoftReset`, as the source writes it: receive a
line; stop with a timeout when none comes and with success on a splash line; go on
otherwise. -/
theorem SoftReset_loop_step (s : Sys) :
    RAK3172_SoftReset_loop s s.Device.Internal.RxQueue =
      match xQueueReceive s with
      | none => ⟨.returns RAK3172_ERR_TIMEOUT, s⟩
      | some (Response, s1) =>
        if isSplash Response then ⟨.returns RAK3172_ERR_OK, s1⟩
        else RAK3172_SoftReset_loop s1 s1.Device.Internal.RxQueue := by
  obtain ⟨⟨itf, rx, tx, rst, baud, mode, fw, sn, ⟨q, buf, hd, ini, busy⟩⟩, wire, ops, drv⟩ := s
  cases q with
  | nil => rfl
  | cons l q =>
    simp only [xQueueReceive, RAK3172_SoftReset_loop]
    split
    · rfl
    · exact (SoftReset_loop_queue _ q q).symm

theorem SoftReset_loop_timeout (s : Sys) (q : List CppString)
    (h : ∀ l ∈ q, ¬ hasSplash l) :
    RAK3172_SoftReset_loop s q
      = ⟨.returns RAK3172_ERR_TIMEOUT, { s with Device.Internal.RxQueue := [] }⟩ := by
  induction q with
  | nil => rfl
  | cons l q ih =>
    have hl : isSplash l = false := (isSplash_false_iff l).mpr (h l (by simp))
    simp only [RAK3172_SoftReset_loop, hl, Bool.false_eq_true, if_false]
    exact ih (fun x hx => h x (by simp [hx]))

theorem SoftReset_loop_found (s : Sys) (pre post : List CppString) (l : CppString)
    (hpre : ∀ x ∈ pre, ¬ hasSplash x) (hl : hasSplash l) :
    RAK3172_SoftReset_loop s (pre ++ l :: post)
      = ⟨.returns RAK3172_ERR_OK, { s with Device.Internal.RxQueue := post }⟩ := by
  induction pre with
  | nil => simp [RAK3172_SoftReset_loop, (isSplash_iff l).mpr hl]
  | cons x pre ih =>
    have hx : isSplash x = false := (isSplash_false_iff x).mpr (hpre x (by simp))
    simp only [List.cons_append, RAK3172_SoftReset_loop, hx, Bool.false_eq_true, if_false]
    exact ih (fun y hy => hpre y (by simp [hy]))

/-- A list with an element that satisfies `p` splits at the first such element. -/
theorem exists_first_split {α : Type} (p : α → Prop) (q : List α) (h : ∃ l ∈ q, p l) :
    ∃ pre l post, q = pre ++ l :: post ∧ (∀ x ∈ pre, ¬ p x) ∧ p l := by
  classical
  induction q with
  | nil => simp at h
  | cons a q ih =>
    by_cases ha : p a
    · exact ⟨[], a, q, rfl, by simp, ha⟩
    · have h2 : ∃ l ∈ q, p l := by
        obtain ⟨l, hl, hp⟩ := h
        rcases List.mem_cons.mp hl with rfl | hl
        · exact absurd hp ha
        · exact ⟨l, hl, hp⟩
      obtain ⟨pre, l, post, hq, hpre, hl⟩ := ih h2
      refine ⟨a :: pre, l, post, by simp [hq], ?_, hl⟩
      intro x hx
      rcases List.mem_cons.mp hx with rfl | hx
      · exact ha
      · exact hpre x hx

/-- C7: on an initialized device `RAK3172_SoftReset` writes "ATZ\r\n" to the serial link
and returns; it returns `RAK3172_ERR_OK` exactly when some line of the queue holds
"LoRaWAN." or "LoRa P2P."; it then has taken the lines up to and including the first
such line and left the later lines in the queue. When no line holds a banner, it
returns `RAK3172_ERR_TIMEOUT` and every line has been taken and dropped. -/
theorem C7_SoftReset (s : Sys) (Timeout : Nat)
    (hinit : s.Device.Internal.isInitialized = true) :
    (RAK3172_SoftReset s .device Timeout).Sys.Wire = s.Wire ++ "ATZ\r\n".toList ∧
    ((RAK3172_SoftReset s .device Timeout).Error = .returns RAK3172_ERR_OK
      ↔ ∃ l ∈ s.Device.Internal.RxQueue, hasSplash l) ∧
    (∀ pre l post, s.Device.Internal.RxQueue = pre ++ l :: post →
      (∀ x ∈ pre, ¬ hasSplash x) → hasSplash l →
      (RAK3172_SoftReset s .device Timeout).Error = .returns RAK3172_ERR_OK ∧
      (RAK3172_SoftReset s .device Timeout).Sys.Device.Internal.RxQueue = post) ∧
    ((∀ l ∈ s.Device.Internal.RxQueue, ¬ hasSplash l) →
      (RAK3172_SoftReset s .device Timeout).Error = .returns RAK3172_ERR_TIMEOUT ∧
      (RAK3172_SoftReset s .device Timeout).Sys.Device.Internal.RxQueue = []) := by
  have hrun : RAK3172_SoftReset s .device Timeout
      = RAK3172_SoftReset_loop (uart_write_bytes s "ATZ\r\n".toList)
          s.Device.Internal.RxQueue := by
    simp [RAK3172_SoftReset, hinit, uart_write_bytes]
  have hfound : ∀ pre l post, s.Device.Internal.RxQueue = pre ++ l :: post →
      (∀ x ∈ pre, ¬ hasSplash x) → hasSplash l →
      RAK3172_SoftReset s .device Timeout = ⟨.returns RAK3172_ERR_OK,
        { uart_write_bytes s "ATZ\r\n".toList with Device.Internal.RxQueue := post }⟩ := by
    intro pre l post hq hpre hl
    rw [hrun, hq, SoftReset_loop_found _ pre post l hpre hl]
  have htimeout : (∀ l ∈ s.Device.Internal.RxQueue, ¬ hasSplash l) →
      RAK3172_SoftReset s .device Timeout = ⟨.returns RAK3172_ERR_TIMEOUT,
        { uart_write_bytes s "ATZ\r\n".toList with Device.Internal.RxQueue := [] }⟩ := by
    intro h
    rw [hrun, SoftReset_loop_timeout _ _ h]
  refine ⟨?_, ?_, ?_, ?_⟩
  · by_cases h : ∃ l ∈ s.Device.Internal.RxQueue, hasSplash l
    · obtain ⟨pre, l, post, hq, hpre, hl⟩ := exists_first_split hasSplash _ h
      rw [hfound pre l post hq hpre hl]
      rfl
    · rw [htimeout (fun l hl hs => h ⟨l, hl, hs⟩)]
      rfl
  · constructor
    · intro hok
      by_contra h
      rw [htimeout (fun l hl hs => h ⟨l, hl, hs⟩)] at hok
      simp at hok
    · intro h
      obtain ⟨pre, l, post, hq, hpre, hl⟩ := exists_first_split hasSplash _ h
      rw [hfound pre l post hq hpre hl]
  · intro pre l post hq hpre hl
    rw [hfound pre l post hq hpre hl]
    exact ⟨rfl, rfl⟩
  · intro h
    rw [htimeout h]
    exact ⟨rfl, rfl⟩

/-- C7 at a reset answered by a blank line, a banner line, the line with "LoRaWAN."
and one later line: the call returns `RAK3172_ERR_OK` and the later line stays. -/
theorem C7_SoftReset_witness :
    (sampleSys true false ["".toList, "RAKwireless RAK3172".toList,
        "Current Work Mode: LoRaWAN.".toList, "late".toList]).Device.Internal.isInitialized
      = true ∧
    (RAK3172_SoftReset (sampleSys true false ["".toList, "RAKwireless RAK3172".toList,
        "Current Work Mode: LoRaWAN.".toList, "late".toList]) .device 10).Error
      = .returns RAK3172_ERR_OK ∧
    (RAK3172_SoftReset (sampleSys true false ["".toList, "RAKwireless RAK3172".toList,
        "Current Work Mode: LoRaWAN.".toList, "late".toList]) .device
        10).Sys.Device.Internal.RxQueue = ["late".toList] :=
  ⟨rfl, (C7_SoftReset (sampleSys true false ["".toList, "RAKwireless RAK3172".toList,
        "Current Work Mode: LoRaWAN.".toList, "late".toList]) 10 rfl).2.2.1
      ["".toList, "RAKwireless RAK3172".toList] "Current Work Mode: LoRaWAN.".toList
      ["late".toList] rfl
      (fun x hx => (isSplash_false_iff x).mp (by
        rcases List.mem_cons.mp hx with rfl | hx
        · decide
        · rcases List.mem_cons.mp hx with rfl | hx
          · decide
          · simp at hx))
      ((isSplash_iff _).mp (by decide))⟩

/-! ## The value of `RAK3172_SendCommand` -/

/-- The value that `RAK3172_SendCommand` hands out, in terms of the value line `L`. -/
theorem SendCommand_value_eq (cfg : Config) (s : Sys) (Command old : CppString)
    (p_Status : Option CppString) (L : CppString) (rest : List CppString)
    (hinit : s.Device.Internal.isInitialized = true)
    (hbusy : s.Device.Internal.isBusy = false)
    (hq : s.Device.Internal.RxQueue = L :: rest) :
    (RAK3172_SendCommand cfg s .device Command (some old) p_Status).Value
      = some (if cfg.USE_RUI3 then L.drop ((size_t_of_find (find L "=".toList) + 1) % 2 ^ 32)
              else L) := by
  obtain ⟨⟨itf, rx, tx, rst, baud, mode, fw, sn, ⟨q, buf, hd, ini, busy⟩⟩, wire, ops, drv⟩ := s
  simp only at hinit hbusy hq
  subst hinit hbusy hq
  rcases cfg with ⟨rui, c2, c3, c4, c5⟩
  simp only [RAK3172_SendCommand, substr_after_find]
  rcases rest with _ | ⟨a, _ | ⟨b, q1⟩⟩ <;> cases rui <;>
    simp [RAK3172_SendCommand_linefeed, RAK3172_SendCommand_status, xQueueReceive,
      uart_write_bytes]

/-- C8: let `L` be the value line that `RAK3172_SendCommand` receives (a `std::string`,
so shorter than `npos`). With the RUI3 firmware the value handed to the caller is what
follows the first `=` of `L`, and `L` itself when `L` has no `=`; with the legacy
firmware it is `L`. -/
theorem C8_SendCommand_value (cfg : Config) (s : Sys) (Command old : CppString)
    (p_Status : Option CppString) (L : CppString) (rest : List CppString)
    (hinit : s.Device.Internal.isInitialized = true)
    (hbusy : s.Device.Internal.isBusy = false)
    (hq : s.Device.Internal.RxQueue = L :: rest)
    (hlen : L.length < npos) :
    (cfg.USE_RUI3 = true →
      (∀ pre post, L = pre ++ '=' :: post → '=' ∉ pre →
        (RAK3172_SendCommand cfg s .device Command (some old) p_Status).Value = some post) ∧
      ('=' ∉ L →
        (RAK3172_SendCommand cfg s .device Command (some old) p_Status).Value = some L)) ∧
    (cfg.USE_RUI3 = false →
      (RAK3172_SendCommand cfg s .device Command (some old) p_Status).Value = some L) := by
  rw [SendCommand_value_eq cfg s Command old p_Status L rest hinit hbusy hq]
  refine ⟨fun hr => ⟨?_, ?_⟩, fun hr => ?_⟩
  · intro pre post hL hpre
    subst hL
    have hf : find (pre ++ '=' :: post) "=".toList = some pre.length := by
      have := find_from_eq_sign pre post 0 hpre
      simpa [find] using this
    have hpos : (pre.length + 1) % 2 ^ 32 = pre.length + 1 := by
      apply Nat.mod_eq_of_lt
      simp only [npos, List.length_append, List.length_cons] at hlen
      omega
    rw [if_pos hr, hf]
    simp only [size_t_of_find, hpos]
    simp
  · intro hno
    have hf : find L "=".toList = none := find_eq_sign_none L hno
    rw [if_pos hr, hf]
    simp [size_t_of_find, npos]
  · simp [hr]

/-- C8 at the line "AT+RSSI=-42" of the RUI3 build: the value is "-42". -/
theorem C8_SendCommand_value_witness :
    (sampleSys true false ["AT+RSSI=-42".toList, "OK".toList]).Device.Internal.RxQueue
      = "AT+RSSI=-42".toList :: ["OK".toList] ∧
    (RAK3172_SendCommand rui3 (sampleSys true false ["AT+RSSI=-42".toList, "OK".toList])
      .device "AT+RSSI=?".toList (some []) none).Value = some "-42".toList :=
  ⟨rfl, ((C8_SendCommand_value rui3 (sampleSys true false ["AT+RSSI=-42".toList, "OK".toList])
    "AT+RSSI=?".toList [] none "AT+RSSI=-42".toList ["OK".toList] rfl rfl rfl
    (by decide)).1 rfl).1 "AT+RSSI".toList "-42".toList rfl (by decide)⟩

/-! ## `RAK3172_SetMode` -/

/-- For a value of 32 bits `std::to_string((uint32_t)x)` is the decimal text of `x`. -/
theorem to_string_uint32_eq (x : Int) (h0 : 0 ≤ x) (h1 : x < 2 ^ 32) :
    to_string_uint32 x = decimalText x := by
  have hmod : x % 2 ^ 32 = x := Int.emod_eq_of_lt h0 h1
  have hneg : ¬ x < 0 := not_lt.mpr h0
  have hnat : x.toNat = x.natAbs := by omega
  simp only [to_string_uint32, decimalText, hmod, hneg, if_false, List.nil_append, Nat.repr,
    List.asString, String.toList, hnat]

/-- The loop of `RAK3172_SetMode` ends with an empty queue and changes nothing else. -/
theorem SetMode_loop_eq (s : Sys) (q : List CppString) :
    RAK3172_SetMode_loop s q = { s with Device.Internal.RxQueue := [] } := by
  induction q with
  | nil => rfl
  | cons l q ih => simp only [RAK3172_SetMode_loop, ih]

/-- One round of the loop of `RAK3172_SetMode`, as the source writes it: receive a line
and go on, or stop when no line comes. -/
theorem SetMode_loop_step (s : Sys) :
    RAK3172_SetMode_loop s s.Device.Internal.RxQueue =
      match xQueueReceive s with
      | none => s
      | some (_, s1) => RAK3172_SetMode_loop s1 s1.Device.Internal.RxQueue := by
  obtain ⟨⟨itf, rx, tx, rst, baud, mode, fw, sn, ⟨q, buf, hd, ini, busy⟩⟩, wire, ops, drv⟩ := s
  cases q with
  | nil => rfl
  | cons l q => simp only [xQueueReceive, SetMode_loop_eq]

/-- C10: on an initialized device `RAK3172_SetMode` writes "AT+NWM=", the decimal text
of the mode and "\r\n" to the serial link. When the status line is received (after
the line feed `pre` of the legacy firmware), the call returns `RAK3172_ERR_OK`: if the
status holds "OK" no further line is taken; otherwise all the lines `banner` that
follow, however many, are taken and the queue is left empty, so that a following
`RAK3172_GetMode` works on its own reply lines alone. -/
theorem C10_SetMode (cfg : Config) (s : Sys) (Mode : RAK3172_Mode_t)
    (hinit : s.Device.Internal.isInitialized = true)
    (hlo : 0 ≤ Mode) (hhi : Mode < 2 ^ 32) :
    (RAK3172_SetMode cfg s .device Mode).Sys.Wire
      = s.Wire ++ ("AT+NWM=".toList ++ decimalText Mode ++ "\r\n".toList) ∧
    ∀ pre status banner, s.Device.Internal.RxQueue = pre ++ status :: banner →
      pre.length = (if cfg.USE_RUI3 then 0 else 1) →
      (RAK3172_SetMode cfg s .device Mode).Error = .returns RAK3172_ERR_OK ∧
      ("OK".toList <:+: status →
        (RAK3172_SetMode cfg s .device Mode).Sys.Device.Internal.RxQueue = banner) ∧
      (¬ "OK".toList <:+: status →
        (RAK3172_SetMode cfg s .device Mode).Sys.Device.Internal.RxQueue = [] ∧
        ∀ reply : List CppString,
          RAK3172_GetMode cfg
            { (RAK3172_SetMode cfg s .device Mode).Sys with
              Device.Internal.RxQueue :=
                (RAK3172_SetMode cfg s .device Mode).Sys.Device.Internal.RxQueue ++ reply }
            .device
          = RAK3172_GetMode cfg
            { (RAK3172_SetMode cfg s .device Mode).Sys with
              Device.Internal.RxQueue := reply } .device) := by
  rw [← to_string_uint32_eq Mode hlo hhi]
  obtain ⟨⟨itf, rx, tx, rst, baud, mode, fw, sn, ⟨q, buf, hd, ini, busy⟩⟩, wire, ops, drv⟩ := s
  simp only at hinit
  subst hinit
  rcases cfg with ⟨rui, c2, c3, c4, c5⟩
  constructor
  · rcases q with _ | ⟨a, _ | ⟨b, q⟩⟩ <;> cases rui <;>
      simp only [RAK3172_SetMode, RAK3172_SetMode_status, xQueueReceive, uart_write_bytes,
        SetMode_loop_eq] <;>
      simp <;> split <;> rfl
  · intro pre status banner hq hpre
    simp only at hq
    subst hq
    cases rui <;> rcases pre with _ | ⟨a, _ | ⟨b, pre⟩⟩ <;> simp at hpre <;>
      by_cases hok : ['O', 'K'] <:+: status <;>
      simp [RAK3172_SetMode, RAK3172_SetMode_status, xQueueReceive, uart_write_bytes,
        SetMode_loop_eq, find_isSome_iff, hok]

/-! ## `std::stoi` -/

theorem digitChar_spec : ∀ k, k < 10 →
    (Nat.digitChar k).isDigit = true ∧ (Nat.digitChar k).toNat - '0'.toNat = k := by
  decide

theorem digitsValue_append (l : List Char) (c : Char) :
    digitsValue (l ++ [c]) = 10 * digitsValue l + (c.toNat - '0'.toNat) := by
  simp [digitsValue, List.foldl_append]

/-- The digits that `Nat.toDigitsCore` puts in front of its accumulator: a non-empty
run of decimal digits whose value is the number. -/
theorem toDigitsCore_spec (fuel : Nat) : ∀ n, n < fuel →
    ∃ l : List Char, l ≠ [] ∧ (∀ c ∈ l, c.isDigit = true) ∧ digitsValue l = n ∧
      ∀ ds, Nat.toDigitsCore 10 fuel n ds = l ++ ds := by
  induction fuel with
  | zero => intro n h; omega
  | succ f ih =>
    intro n hn
    have hd := digitChar_spec (n % 10) (Nat.mod_lt _ (by decide))
    by_cases h0 : n / 10 = 0
    · refine ⟨[Nat.digitChar (n % 10)], by simp, ?_, ?_, ?_⟩
      · intro c hc
        rw [List.mem_singleton.mp hc]
        exact hd.1
      · have hlt : n < 10 := by omega
        simp only [digitsValue, List.foldl_cons, List.foldl_nil, hd.2]
        omega
      · intro ds
        simp [Nat.toDigitsCore, h0]
    · have hlt : n / 10 < f := by omega
      obtain ⟨l, hne, hall, hval, hrun⟩ := ih (n / 10) hlt
      refine ⟨l ++ [Nat.digitChar (n % 10)], by simp, ?_, ?_, ?_⟩
      · intro c hc
        rcases List.mem_append.mp hc with hc | hc
        · exact hall c hc
        · rw [List.mem_singleton.mp hc]
          exact hd.1
      · rw [digitsValue_append, hval, hd.2]
        omega
      · intro ds
        simp [Nat.toDigitsCore, h0, hrun]

theorem toDigits_spec (n : Nat) :
    Nat.toDigits 10 n ≠ [] ∧ (∀ c ∈ Nat.toDigits 10 n, c.isDigit = true) ∧
      digitsValue (Nat.toDigits 10 n) = n := by
  obtain ⟨l, hne, hall, hval, hrun⟩ := toDigitsCore_spec (n + 1) n (Nat.lt_succ_self n)
  have h : Nat.toDigits 10 n = l := by
    simp [Nat.toDigits, hrun]
  rw [h]
  exact ⟨hne, hall, hval⟩

theorem isDigit_not_space_sign (c : Char) (h : c.isDigit = true) :
    isspace c = false ∧ c ≠ '-' ∧ c ≠ '+' := by
  refine ⟨?_, ?_, ?_⟩
  · cases hs : isspace c with
    | false => rfl
    | true =>
      simp only [isspace, Bool.or_eq_true, decide_eq_true_eq] at hs
      rcases hs with ((((hs | hs) | hs) | hs) | hs) | hs <;> subst hs <;> revert h <;> decide
  · intro hc; subst hc; revert h; decide
  · intro hc; subst hc; revert h; decide

theorem takeWhile_digits (l rest : List Char) (hall : ∀ c ∈ l, c.isDigit = true)
    (hrest : ∀ c ∈ rest.head?, c.isDigit = false) :
    (l ++ rest).takeWhile Char.isDigit = l := by
  induction l with
  | nil =>
    cases rest with
    | nil => rfl
    | cons c t =>
      have : c.isDigit = false := hrest c (by simp)
      simp [List.takeWhile, this]
  | cons a l ih =>
    have ha : a.isDigit = true := hall a (by simp)
    simp [List.takeWhile_cons, ha, ih (fun c hc => hall c (by simp [hc]))]

/-- The call `std::stoi` reads back the decimal text of an `int`, whatever follows the
text, as long as no further digit follows. -/
theorem stoi_decimalText (n : Int) (rest : List Char)
    (hmin : INT_MIN ≤ n) (hmax : n ≤ INT_MAX)
    (hrest : ∀ c ∈ rest.head?, c.isDigit = false) :
    stoi (decimalText n ++ rest) = .ok n := by
  obtain ⟨hne, hall, hval⟩ := toDigits_spec n.natAbs
  have htake := takeWhile_digits (Nat.toDigits 10 n.natAbs) rest hall hrest
  obtain ⟨c, l, hl⟩ := List.exists_cons_of_ne_nil hne
  have hc := isDigit_not_space_sign c (hall c (by simp [hl]))
  by_cases hneg : n < 0
  · have htext : decimalText n ++ rest = '-' :: (Nat.toDigits 10 n.natAbs ++ rest) := by
      simp [decimalText, hneg]
    have habs : |n| = -n := abs_of_neg hneg
    have hr1 : ¬ (n < INT_MIN) := not_lt.mpr hmin
    have hr2 : ¬ (INT_MAX < n) := not_lt.mpr hmax
    rw [htext]
    simp [stoi, List.dropWhile, isspace, htake, hne, hval, hr1, hr2, habs]
  · have htext : decimalText n ++ rest = c :: (l ++ rest) := by
      simp [decimalText, hneg, hl]
    have htake2 : (c :: (l ++ rest)).takeWhile Char.isDigit = c :: l := by
      rw [← List.cons_append, ← hl]; exact htake
    have habs : |n| = n := abs_of_nonneg (not_lt.mp hneg)
    have hval2 : digitsValue (c :: l) = n.natAbs := by rw [← hl]; exact hval
    rw [htext]
    simp [stoi, List.dropWhile, hc.1, hc.2.1, hc.2.2, htake2, hval2, hmin, hmax, habs]

/-- The call `std::stoi` throws `std::invalid_argument` on a text that is empty or
starts with a character that is neither white space, a sign nor a digit. -/
theorem stoi_no_number (V : List Char)
    (h : ∀ c ∈ V.head?, isspace c = false ∧ c ≠ '-' ∧ c ≠ '+' ∧ c.isDigit = false) :
    stoi V = .error .invalid_argument := by
  cases V with
  | nil => simp [stoi]
  | cons c t =>
    obtain ⟨h1, h2, h3, h4⟩ := h c (by simp)
    simp [stoi, List.dropWhile, List.takeWhile, h1, h2, h3, h4]


theorem dropWhile_space_append (ws X : List Char) (hws : ∀ c ∈ ws, isspace c = true)
    (hX : ∀ c ∈ X.head?, isspace c = false) : (ws ++ X).dropWhile isspace = X := by
  induction ws with
  | nil =>
    cases X with
    | nil => rfl
    | cons c t => simp [List.dropWhile, hX c (by simp)]
  | cons a ws ih =>
    have ha : isspace a = true := hws a (by simp)
    simp only [List.cons_append, List.dropWhile, ha]
    exact ih (fun c hc => hws c (by simp [hc]))

/-- On a text that reads as a number `std::stoi` gives that number when it fits an
`int` and throws `std::out_of_range` when it does not. -/
theorem stoi_readsNumber (V : CppString) (neg : Bool) (ds rest : List Char)
    (h : readsNumber V neg ds rest) :
    stoi V = if numberValue neg ds < INT_MIN ∨ INT_MAX < numberValue neg ds
             then .error .out_of_range else .ok (numberValue neg ds) := by
  obtain ⟨ws, sign, hV, hws, hsign, hne, hds, hrest⟩ := h
  obtain ⟨d, ds', hd⟩ := List.exists_cons_of_ne_nil hne
  have hdig := isDigit_not_space_sign d (hds d (by simp [hd]))
  have htake := takeWhile_digits ds rest hds hrest
  rcases hsign with ⟨hs, hn⟩ | ⟨hs, hn⟩ | ⟨hs, hn⟩
  · subst hs hn
    have hdrop : V.dropWhile isspace = d :: (ds' ++ rest) := by
      rw [hV, List.nil_append, hd]
      exact dropWhile_space_append ws _ hws (by simp [hdig.1])
    have htake2 : (d :: (ds' ++ rest)).takeWhile Char.isDigit = d :: ds' := by
      rw [← List.cons_append, ← hd]; exact htake
    simp only [stoi, hdrop, numberValue]
    simp [hdig.2.1, hdig.2.2, htake2, hd]
  · subst hs hn
    have hdrop : V.dropWhile isspace = '+' :: (ds ++ rest) := by
      rw [hV]
      exact dropWhile_space_append ws _ hws (by simp; decide)
    simp only [stoi, hdrop, numberValue]
    simp [htake, hne]
  · subst hs hn
    have hdrop : V.dropWhile isspace = '-' :: (ds ++ rest) := by
      rw [hV]
      exact dropWhile_space_append ws _ hws (by simp; decide)
    simp only [stoi, hdrop, numberValue]
    simp [htake, hne]

/-- On a text that does not read as a number `std::stoi` throws
`std::invalid_argument`. -/
theorem stoi_not_readsNumber (V : CppString)
    (h : ∀ neg ds rest, ¬ readsNumber V neg ds rest) :
    stoi V = .error .invalid_argument := by
  by_contra hstoi
  have hsplit : V = V.takeWhile isspace ++ V.dropWhile isspace :=
    (List.takeWhile_append_dropWhile isspace V).symm
  have hws : ∀ c ∈ V.takeWhile isspace, isspace c = true :=
    fun c hc => List.mem_takeWhile_imp hc
  generalize hs : V.dropWhile isspace = s at hsplit
  -- the body behind the sign
  have hbody : ∀ (sign body : List Char) (neg : Bool), s = sign ++ body →
      ((sign = [] ∧ neg = false) ∨ (sign = ['+'] ∧ neg = false) ∨ (sign = ['-'] ∧ neg = true)) →
      body.takeWhile Char.isDigit = [] := by
    intro sign body neg hsb hsign
    by_contra hne
    refine h neg (body.takeWhile Char.isDigit) (body.dropWhile Char.isDigit)
      ⟨V.takeWhile isspace, sign, ?_, hws, hsign, hne,
        fun c hc => List.mem_takeWhile_imp hc, ?_⟩
    · rw [List.takeWhile_append_dropWhile, ← hsb]
      exact hsplit
    · intro c hc
      have := List.head?_dropWhile_not Char.isDigit body
      rw [Option.mem_def] at hc
      rw [hc] at this
      simpa using this
  apply hstoi
  simp only [stoi, hs]
  by_cases h1 : s.head? = some '-'
  · obtain ⟨t, ht⟩ : ∃ t, s = '-' :: t := by
      cases s with
      | nil => simp at h1
      | cons c t => simp only [List.head?_cons, Option.some.injEq] at h1; exact ⟨t, by rw [h1]⟩
    have := hbody ['-'] t true (by simp [ht]) (by simp)
    simp [ht, this]
  · by_cases h2 : s.head? = some '+'
    · obtain ⟨t, ht⟩ : ∃ t, s = '+' :: t := by
        cases s with
        | nil => simp at h2
        | cons c t => simp only [List.head?_cons, Option.some.injEq] at h2; exact ⟨t, by rw [h2]⟩
      have := hbody ['+'] t false (by simp [ht]) (by simp)
      simp [ht, this]
    · have := hbody [] s false (by simp) (by simp)
      simp [h1, h2, this]

/-- The text "12abc" is not the decimal text of any integer. -/
theorem decimalText_ne_12abc (n : Int) : decimalText n ≠ "12abc".toList := by
  intro h
  have hmem : 'a' ∈ decimalText n := by rw [h]; decide
  obtain ⟨_, hall, _⟩ := toDigits_spec n.natAbs
  simp only [decimalText, List.mem_append] at hmem
  rcases hmem with hmem | hmem
  · split at hmem
    · exact absurd (List.mem_singleton.mp hmem) (by decide)
    · simp at hmem
  · exact absurd (hall 'a' hmem) (by decide)

/-! ## `RAK3172_GetRSSI` and `RAK3172_GetSNR` -/

/-- An integer query whose command succeeds with the value text `V` ends as
`std::stoi(V)` does. -/
theorem queryInt_eq (cfg : Config) (s : Sys) (Command V : CppString) (old : Int)
    (hE : (RAK3172_SendCommand cfg s .device Command (some []) none).Error
      = .returns RAK3172_ERR_OK)
    (hV : (RAK3172_SendCommand cfg s .device Command (some []) none).Value = some V) :
    (queryInt cfg s .device Command (some old)).Error
        = (match stoi V with
           | .error x => Outcome.throws x
           | .ok _ => Outcome.returns RAK3172_ERR_OK) ∧
    (queryInt cfg s .device Command (some old)).Out
        = (match stoi V with
           | .error _ => some old
           | .ok n => some n) := by
  simp only [queryInt, hE, hV, RAK3172_ERROR_CHECK, if_true, Option.getD_some]
  cases stoi V <;> exact ⟨rfl, rfl⟩

/-- C9 as stated fails: with the value text "12abc", which is not the decimal text of
an integer, and the status "OK", `RAK3172_GetRSSI` and `RAK3172_GetSNR` return
`RAK3172_ERR_OK` with the result 12. -/
theorem C9_trailing_text_counterexample :
    (RAK3172_GetRSSI rui3 (sampleSys true false ["12abc".toList, "OK".toList]) .device
      (some 0)).Error = .returns RAK3172_ERR_OK ∧
    (RAK3172_GetRSSI rui3 (sampleSys true false ["12abc".toList, "OK".toList]) .device
      (some 0)).Out = some 12 ∧
    (RAK3172_GetSNR rui3 (sampleSys true false ["12abc".toList, "OK".toList]) .device
      (some 0)).Error = .returns RAK3172_ERR_OK ∧
    (RAK3172_GetSNR rui3 (sampleSys true false ["12abc".toList, "OK".toList]) .device
      (some 0)).Out = some 12 ∧
    ∀ n : Int, decimalText n ≠ "12abc".toList :=
  ⟨by decide, by decide, by decide, by decide, decimalText_ne_12abc⟩

/-- C9, amended: let the command of `RAK3172_GetRSSI` and of `RAK3172_GetSNR` succeed
with the value text `V`. If `V` is the decimal text of an integer `n` of the range of
`int`, followed by nothing or by text that does not start with a digit, both
operations return `RAK3172_ERR_OK` with the result `n`. In general the text is read as
`std::stoi` reads it. A text that reads as a number (white space, at most one sign, a
run of digits, then anything that does not start with a digit) gives
`RAK3172_ERR_OK` with that number when it fits an `int`, and the exception
`std::out_of_range` when it does not. Every text that does not read as a number gives
the exception `std::invalid_argument`. With either exception the operation does not
return `RAK3172_ERR_OK` and the result is left as it was. -/
theorem C9_GetRSSI_GetSNR_parse (cfg : Config) (s : Sys) (V : CppString) (old : Int)
    (hRE : (RAK3172_SendCommand cfg s .device "AT+RSSI=?".toList (some []) none).Error
      = .returns RAK3172_ERR_OK)
    (hRV : (RAK3172_SendCommand cfg s .device "AT+RSSI=?".toList (some []) none).Value
      = some V)
    (hSE : (RAK3172_SendCommand cfg s .device "AT+SNR=?".toList (some []) none).Error
      = .returns RAK3172_ERR_OK)
    (hSV : (RAK3172_SendCommand cfg s .device "AT+SNR=?".toList (some []) none).Value
      = some V) :
    (∀ (n : Int) (rest : List Char), INT_MIN ≤ n → n ≤ INT_MAX →
      V = decimalText n ++ rest → (∀ c ∈ rest.head?, c.isDigit = false) →
      (RAK3172_GetRSSI cfg s .device (some old)).Error = .returns RAK3172_ERR_OK ∧
      (RAK3172_GetRSSI cfg s .device (some old)).Out = some n ∧
      (RAK3172_GetSNR cfg s .device (some old)).Error = .returns RAK3172_ERR_OK ∧
      (RAK3172_GetSNR cfg s .device (some old)).Out = some n) ∧
    (∀ (neg : Bool) (ds rest : List Char), readsNumber V neg ds rest →
      (INT_MIN ≤ numberValue neg ds ∧ numberValue neg ds ≤ INT_MAX →
        (RAK3172_GetRSSI cfg s .device (some old)).Error = .returns RAK3172_ERR_OK ∧
        (RAK3172_GetRSSI cfg s .device (some old)).Out = some (numberValue neg ds) ∧
        (RAK3172_GetSNR cfg s .device (some old)).Error = .returns RAK3172_ERR_OK ∧
        (RAK3172_GetSNR cfg s .device (some old)).Out = some (numberValue neg ds)) ∧
      (numberValue neg ds < INT_MIN ∨ INT_MAX < numberValue neg ds →
        (RAK3172_GetRSSI cfg s .device (some old)).Error = .throws .out_of_range ∧
        (RAK3172_GetRSSI cfg s .device (some old)).Out = some old ∧
        (RAK3172_GetSNR cfg s .device (some old)).Error = .throws .out_of_range ∧
        (RAK3172_GetSNR cfg s .device (some old)).Out = some old)) ∧
    ((∀ (neg : Bool) (ds rest : List Char), ¬ readsNumber V neg ds rest) →
      (RAK3172_GetRSSI cfg s .device (some old)).Error = .throws .invalid_argument ∧
      (RAK3172_GetRSSI cfg s .device (some old)).Out = some old ∧
      (RAK3172_GetSNR cfg s .device (some old)).Error = .throws .invalid_argument ∧
      (RAK3172_GetSNR cfg s .device (some old)).Out = some old) := by
  have hR := queryInt_eq cfg s "AT+RSSI=?".toList V old hRE hRV
  have hS := queryInt_eq cfg s "AT+SNR=?".toList V old hSE hSV
  refine ⟨?_, ?_, ?_⟩
  · intro n rest hmin hmax hV hrest
    have hstoi : stoi V = .ok n := by rw [hV]; exact stoi_decimalText n rest hmin hmax hrest
    rw [hstoi] at hR hS
    exact ⟨hR.1, hR.2, hS.1, hS.2⟩
  · intro neg ds rest hnum
    have hstoi := stoi_readsNumber V neg ds rest hnum
    constructor
    · intro hrange
      have hno : ¬ (numberValue neg ds < INT_MIN ∨ INT_MAX < numberValue neg ds) := by
        intro h
        rcases h with h | h
        · exact absurd hrange.1 (not_le.mpr h)
        · exact absurd hrange.2 (not_le.mpr h)
      rw [if_neg hno] at hstoi
      rw [hstoi] at hR hS
      exact ⟨hR.1, hR.2, hS.1, hS.2⟩
    · intro hout
      rw [if_pos hout] at hstoi
      rw [hstoi] at hR hS
      exact ⟨hR.1, hR.2, hS.1, hS.2⟩
  · intro hnone
    have hstoi : stoi V = .error .invalid_argument := stoi_not_readsNumber V hnone
    rw [hstoi] at hR hS
    exact ⟨hR.1, hR.2, hS.1, hS.2⟩

/-- C9, amended, at the reply "-42", "OK" of the RUI3 build: the result is -42. -/
theorem C9_GetRSSI_GetSNR_parse_witness :
    (RAK3172_SendCommand rui3 (sampleSys true false ["-42".toList, "OK".toList]) .device
      "AT+RSSI=?".toList (some []) none).Value = some "-42".toList ∧
    (RAK3172_GetRSSI rui3 (sampleSys true false ["-42".toList, "OK".toList]) .device
      (some 0)).Out = some (-42) ∧
    (RAK3172_GetSNR rui3 (sampleSys true false ["-42".toList, "OK".toList]) .device
      (some 0)).Out = some (-42) :=
  have h := (C9_GetRSSI_GetSNR_parse rui3 (sampleSys true false ["-42".toList, "OK".toList])
    "-42".toList 0 (by decide) (by decide) (by decide) (by decide)).1 (-42) []
    (by decide) (by decide) (by decide) (by simp)
  ⟨by decide, h.2.1, h.2.2.2⟩

/-- Texts that do not read as a number, or whose number does not fit an `int`, as the
operations meet them: "-", " abc" and "-x" end `RAK3172_GetRSSI` with
`std::invalid_argument`, "2147483648" with `std::out_of_range`. -/
theorem GetRSSI_parse_failures :
    (RAK3172_GetRSSI rui3 (sampleSys true false ["-".toList, "OK".toList]) .device
      (some 0)).Error = .throws .invalid_argument ∧
    (RAK3172_GetRSSI rui3 (sampleSys true false [" abc".toList, "OK".toList]) .device
      (some 0)).Error = .throws .invalid_argument ∧
    (RAK3172_GetRSSI rui3 (sampleSys true false ["-x".toList, "OK".toList]) .device
      (some 0)).Error = .throws .invalid_argument ∧
    (RAK3172_GetRSSI rui3 (sampleSys true false ["2147483648".toList, "OK".toList]) .device
      (some 0)).Error = .throws .out_of_range := by
  decide

/-- C10 at a change of mode of the RUI3 build that makes the module reboot: the
first line is not "OK", three banner lines follow; all are taken, the call returns
`RAK3172_ERR_OK` and the queue is empty. -/
theorem C10_SetMode_witness :
    (sampleSys true false ["".toList, "RAKwireless RAK3172 Example".toList,
        "------------------------------------------------------".toList,
        "Current Work Mode: LoRa P2P.".toList]).Device.Internal.isInitialized = true ∧
    (RAK3172_SetMode rui3 (sampleSys true false ["".toList,
        "RAKwireless RAK3172 Example".toList,
        "------------------------------------------------------".toList,
        "Current Work Mode: LoRa P2P.".toList]) .device 0).Error = .returns RAK3172_ERR_OK ∧
    (RAK3172_SetMode rui3 (sampleSys true false ["".toList,
        "RAKwireless RAK3172 Example".toList,
        "------------------------------------------------------".toList,
        "Current Work Mode: LoRa P2P.".toList]) .device 0).Sys.Device.Internal.RxQueue = [] ∧
    (RAK3172_SetMode rui3 (sampleSys true false ["".toList,
        "RAKwireless RAK3172 Example".toList,
        "------------------------------------------------------".toList,
        "Current Work Mode: LoRa P2P.".toList]) .device 0).Sys.Wire = "AT+NWM=0\r\n".toList :=
  have h := C10_SetMode rui3 (sampleSys true false ["".toList,
        "RAKwireless RAK3172 Example".toList,
        "------------------------------------------------------".toList,
        "Current Work Mode: LoRa P2P.".toList]) 0 rfl (by decide) (by decide)
  have h2 := h.2 [] "".toList ["RAKwireless RAK3172 Example".toList,
        "------------------------------------------------------".toList,
        "Current Work Mode: LoRa P2P.".toList] rfl rfl
  ⟨rfl, h2.1, (h2.2.2 (by decide)).1, h.1⟩

/-! ## `RAK3172_Init` -/

/-- The error label of `RAK3172_Init` clears the flag `isInitialized`. -/
theorem Init_Error_flag (s : Sys) (Error : Outcome) :
    (RAK3172_Init_Error s Error).Sys.Device.Internal.isInitialized = false := rfl

/-- A failure of one of the three queries of `RAK3172_Init` that is returned as an
error code clears the flag `isInitialized`. -/
theorem Init_queries_flag (cfg : Config) (s : Sys) (e : RAK3172_Error_t)
    (h : (RAK3172_Init_queries cfg s).Error = .returns e) (he : e ≠ RAK3172_ERR_OK) :
    (RAK3172_Init_queries cfg s).Sys.Device.Internal.isInitialized = false := by
  unfold RAK3172_Init_queries at h ⊢
  simp only at h ⊢
  generalize RAK3172_GetFWVersion cfg s .device (some s.Device.Firmware) = r1 at h ⊢
  cases hE1 : r1.Error with
  | throws x => simp [hE1] at h
  | undefined => simp [hE1] at h
  | returns e1 =>
    simp only [hE1] at h ⊢
    by_cases he1 : e1 = RAK3172_ERR_OK
    · simp only [he1, ne_eq, not_true_eq_false, if_false] at h ⊢
      generalize RAK3172_GetSerialNumber cfg _ .device _ = r2 at h ⊢
      cases hE2 : r2.Error with
      | throws x => simp [hE2] at h
      | undefined => simp [hE2] at h
      | returns e2 =>
        simp only [hE2] at h ⊢
        by_cases he2 : e2 = RAK3172_ERR_OK
        · simp only [he2, ne_eq, not_true_eq_false, if_false] at h ⊢
          generalize RAK3172_GetMode cfg _ .device = r3 at h ⊢
          cases hE3 : r3.Error with
          | throws x => simp [hE3] at h
          | undefined => simp [hE3] at h
          | returns e3 =>
            simp only [hE3] at h ⊢
            by_cases he3 : e3 = RAK3172_ERR_OK
            · simp [he3] at h
              exact absurd h.symm he
            · simp only [ne_eq, he3, not_false_eq_true, if_true]
              rfl
        · simp only [ne_eq, he2, not_false_eq_true, if_true]
          rfl
    · simp only [ne_eq, he1, not_false_eq_true, if_true]
      rfl

/-- C5 fails in the probe for echo mode: the returns of lines 284 and 293 of
`rak3172.cpp` leave `RAK3172_Init` without the error label. With the reply "LoRaWAN."
to the reset and then "+EVT:JOINED" to the probe "AT" (RUI3 build), the next receive
times out: `RAK3172_Init` returns `RAK3172_ERR_TIMEOUT` at line 293 and
`isInitialized` is true. The same holds when nothing answers the probe (return through
`RAK3172_ERROR_CHECK` at line 284). -/
theorem C5_Init_echo_error_keeps_flag :
    ((RAK3172_Init rui3 (sampleEnv ["LoRaWAN.".toList, "+EVT:JOINED".toList])
        (sampleSys false false []) .device).Error = .returns RAK3172_ERR_TIMEOUT ∧
     (RAK3172_Init rui3 (sampleEnv ["LoRaWAN.".toList, "+EVT:JOINED".toList])
        (sampleSys false false []) .device).Sys.Device.Internal.isInitialized = true) ∧
    ((RAK3172_Init rui3 (sampleEnv ["LoRaWAN.".toList])
        (sampleSys false false []) .device).Error = .returns RAK3172_ERR_TIMEOUT ∧
     (RAK3172_Init rui3 (sampleEnv ["LoRaWAN.".toList])
        (sampleSys false false []) .device).Sys.Device.Internal.isInitialized = true) := by
  decide

/-! ## `RAK3172_Deinit` -/

/-- On a device that is not initialized `RAK3172_Deinit` changes nothing: no resource
call, nothing written, the device as before. -/
theorem Deinit_not_initialized (s : Sys)
    (h : s.Device.Internal.isInitialized = false) : RAK3172_Deinit s = s := by
  simp [RAK3172_Deinit, h]

/-- The loop of `RAK3172_Deinit` ends with an empty queue and changes nothing else. -/
theorem Deinit_loop_eq (s : Sys) (q : List CppString) :
    RAK3172_Deinit_loop s q = { s with Device.Internal.RxQueue := [] } := by
  induction q with
  | nil => rfl
  | cons l q ih => simp only [RAK3172_Deinit_loop, ih]

/-- The function `RAK3172_Deinit` leaves the flag `isInitialized` as it finds it. -/
theorem Deinit_flag (s : Sys) :
    (RAK3172_Deinit s).Device.Internal.isInitialized = s.Device.Internal.isInitialized := by
  unfold RAK3172_Deinit
  split
  · rfl
  · simp only [Deinit_loop_eq, call]
    split <;> rfl

/-- C6 fails for a second `RAK3172_Deinit` in a row: the first call on an initialized
device leaves `isInitialized` true, so the second call makes the resource calls of
the teardown once more and the state after two calls differs from the state after
one. -/
theorem C6_Deinit_twice :
    (RAK3172_Deinit (sampleSys true false ["late".toList])).Device.Internal.isInitialized
      = true ∧
    (RAK3172_Deinit (RAK3172_Deinit (sampleSys true false ["late".toList]))).Ops
      = (RAK3172_Deinit (sampleSys true false ["late".toList])).Ops ++
        [.free, .vTaskSuspend, .vTaskDelete, .vQueueDelete,
         .gpio_config (pinMask 16 17) false false, .gpio_set_level 16 true,
         .gpio_set_level 17 false] ∧
    RAK3172_Deinit (RAK3172_Deinit (sampleSys true false ["late".toList]))
      ≠ RAK3172_Deinit (sampleSys true false ["late".toList]) := by
  decide

/-- One round of the loop of `RAK3172_Deinit`, as the source writes it: receive a line
and go on, or stop when no line comes. -/
theorem Deinit_loop_step (s : Sys) :
    RAK3172_Deinit_loop s s.Device.Internal.RxQueue =
      match xQueueReceive s with
      | none => s
      | some (_, s1) => RAK3172_Deinit_loop s1 s1.Device.Internal.RxQueue := by
  obtain ⟨⟨itf, rx, tx, rst, baud, mode, fw, sn, ⟨q, buf, hd, ini, busy⟩⟩, wire, ops, drv⟩ := s
  cases q with
  | nil => rfl
  | cons l q => simp only [xQueueReceive, Deinit_loop_eq]

/-! ## What `RAK3172_SendCommand` leaves alone -/

/-- A `RAK3172_SendCommand` changes the state at most in the receive queue and in the
bytes written to the serial link. -/
theorem SendCommand_frame (cfg : Config) (s : Sys) (p_Device : DevicePtr)
    (Command : CppString) (p_Value p_Status : Option CppString) :
    (RAK3172_SendCommand cfg s p_Device Command p_Value p_Status).Sys =
      { s with
        Device.Internal.RxQueue :=
          (RAK3172_SendCommand cfg s p_Device Command p_Value
            p_Status).Sys.Device.Internal.RxQueue,
        Wire := (RAK3172_SendCommand cfg s p_Device Command p_Value p_Status).Sys.Wire } := by
  obtain ⟨⟨itf, rx, tx, rst, baud, mode, fw, sn, ⟨q, buf, hd, ini, busy⟩⟩, wire, ops, drv⟩ := s
  rcases cfg with ⟨rui, c2, c3, c4, c5⟩
  simp only [RAK3172_SendCommand, substr_after_find]
  cases p_Device <;> cases busy <;> cases ini <;> cases rui <;> cases p_Value <;>
    rcases q with _ | ⟨a, _ | ⟨b, _ | ⟨c, q⟩⟩⟩ <;>
    simp [RAK3172_SendCommand_linefeed, RAK3172_SendCommand_status, xQueueReceive,
      uart_write_bytes]

/-- An accepted `RAK3172_SendCommand` writes its command and "\r\n" to the serial link,
however the call ends. -/
theorem SendCommand_wire (cfg : Config) (s : Sys) (Command : CppString)
    (p_Value p_Status : Option CppString)
    (hinit : s.Device.Internal.isInitialized = true)
    (hbusy : s.Device.Internal.isBusy = false) :
    (RAK3172_SendCommand cfg s .device Command p_Value p_Status).Sys.Wire
      = s.Wire ++ (Command ++ "\r\n".toList) := by
  obtain ⟨⟨itf, rx, tx, rst, baud, mode, fw, sn, ⟨q, buf, hd, ini, busy⟩⟩, wire, ops, drv⟩ := s
  simp only at hinit hbusy
  subst hinit hbusy
  rcases cfg with ⟨rui, c2, c3, c4, c5⟩
  simp only [RAK3172_SendCommand, substr_after_find]
  cases rui <;> cases p_Value <;>
    rcases q with _ | ⟨a, _ | ⟨b, _ | ⟨c, q⟩⟩⟩ <;>
    simp [RAK3172_SendCommand_linefeed, RAK3172_SendCommand_status, xQueueReceive,
      uart_write_bytes]

/-- The string behind a non-null `p_Value` is still there after the call. -/
theorem SendCommand_value_isSome (cfg : Config) (s : Sys) (p_Device : DevicePtr)
    (Command old : CppString) (p_Status : Option CppString) :
    ∃ V, (RAK3172_SendCommand cfg s p_Device Command (some old) p_Status).Value = some V := by
  obtain ⟨⟨itf, rx, tx, rst, baud, mode, fw, sn, ⟨q, buf, hd, ini, busy⟩⟩, wire, ops, drv⟩ := s
  rcases cfg with ⟨rui, c2, c3, c4, c5⟩
  simp only [RAK3172_SendCommand, substr_after_find]
  cases p_Device <;> cases busy <;> cases ini <;> cases rui <;>
    rcases q with _ | ⟨a, _ | ⟨b, _ | ⟨c, q⟩⟩⟩ <;>
    simp [RAK3172_SendCommand_linefeed, RAK3172_SendCommand_status, xQueueReceive,
      uart_write_bytes]

/-! ## `RAK3172_SetMode` followed by `RAK3172_GetMode` -/

/-- The function `RAK3172_SetMode` never writes the field `Mode` of the device. -/
theorem SetMode_keeps_mode (cfg : Config) (s : Sys) (p_Device : DevicePtr)
    (Mode : RAK3172_Mode_t) :
    (RAK3172_SetMode cfg s p_Device Mode).Sys.Device.Mode = s.Device.Mode := by
  obtain ⟨⟨itf, rx, tx, rst, baud, mode, fw, sn, ⟨q, buf, hd, ini, busy⟩⟩, wire, ops, drv⟩ := s
  rcases cfg with ⟨rui, c2, c3, c4, c5⟩
  cases p_Device <;> cases ini <;> cases rui <;> rcases q with _ | ⟨a, _ | ⟨b, q⟩⟩ <;>
    simp only [RAK3172_SetMode, RAK3172_SetMode_status, xQueueReceive, uart_write_bytes,
      SetMode_loop_eq] <;>
    simp <;> split <;> rfl

/-- A `RAK3172_GetMode` that returns `RAK3172_ERR_OK` has stored the number that
`std::stoi` reads from the value text of its command. -/
theorem GetMode_ok (cfg : Config) (s : Sys) (p_Device : DevicePtr)
    (h : (RAK3172_GetMode cfg s p_Device).Error = .returns RAK3172_ERR_OK) :
    ∃ V, (RAK3172_SendCommand cfg s p_Device "AT+NWM=?".toList (some []) none).Value = some V ∧
      stoi V = .ok (RAK3172_GetMode cfg s p_Device).Sys.Device.Mode := by
  obtain ⟨V, hV⟩ := SendCommand_value_isSome cfg s p_Device "AT+NWM=?".toList [] none
  refine ⟨V, hV, ?_⟩
  unfold RAK3172_GetMode at h ⊢
  simp only [hV, Option.getD_some] at h ⊢
  cases hc : RAK3172_ERROR_CHECK
      (RAK3172_SendCommand cfg s p_Device "AT+NWM=?".toList (some []) none).Error with
  | some e =>
    simp only [hc] at h
    simp only [RAK3172_ERROR_CHECK] at hc
    split at hc
    · simp at hc
    · simp only [Option.some.injEq] at hc
      rw [← hc] at h
      contradiction
  | none =>
    simp only [hc] at h ⊢
    cases hs : stoi V with
    | error x => simp [hs] at h
    | ok n => rfl

/-- C11 as stated fails: `RAK3172_SetMode` with mode 1 returns `RAK3172_ERR_OK` on the
status "OK", the following `RAK3172_GetMode` returns `RAK3172_ERR_OK` on the reply
"AT+NWM=0", "OK", and the mode field of the device is 0. -/
theorem C11_roundtrip_counterexample :
    (RAK3172_SetMode rui3
        (sampleSys true false ["OK".toList, "AT+NWM=0".toList, "OK".toList]) .device 1).Error
      = .returns RAK3172_ERR_OK ∧
    (RAK3172_GetMode rui3 (RAK3172_SetMode rui3
        (sampleSys true false ["OK".toList, "AT+NWM=0".toList, "OK".toList]) .device 1).Sys
        .device).Error = .returns RAK3172_ERR_OK ∧
    (RAK3172_GetMode rui3 (RAK3172_SetMode rui3
        (sampleSys true false ["OK".toList, "AT+NWM=0".toList, "OK".toList]) .device 1).Sys
        .device).Sys.Device.Mode ≠ 1 := by
  decide

/-- C11, amended: `RAK3172_SetMode` leaves the mode field of the device as it was. If
it returns `RAK3172_ERR_OK` and the `RAK3172_GetMode` that follows (with the lines
`reply` queued behind what `RAK3172_SetMode` left) returns `RAK3172_ERR_OK`, the mode
field is the number that `std::stoi` reads from the value text `V` that
`RAK3172_GetMode` received from the module; it equals the mode that was set exactly
when the module reports that mode. -/
theorem C11_SetMode_GetMode (cfg : Config) (s : Sys) (Mode : RAK3172_Mode_t)
    (reply : List CppString)
    (hset : (RAK3172_SetMode cfg s .device Mode).Error = .returns RAK3172_ERR_OK)
    (hget : (RAK3172_GetMode cfg
        { (RAK3172_SetMode cfg s .device Mode).Sys with
          Device.Internal.RxQueue :=
            (RAK3172_SetMode cfg s .device Mode).Sys.Device.Internal.RxQueue ++ reply }
        .device).Error = .returns RAK3172_ERR_OK) :
    (RAK3172_SetMode cfg s .device Mode).Sys.Device.Mode = s.Device.Mode ∧
    ∃ V,
      (RAK3172_SendCommand cfg
        { (RAK3172_SetMode cfg s .device Mode).Sys with
          Device.Internal.RxQueue :=
            (RAK3172_SetMode cfg s .device Mode).Sys.Device.Internal.RxQueue ++ reply }
        .device "AT+NWM=?".toList (some []) none).Value = some V ∧
      stoi V = .ok (RAK3172_GetMode cfg
        { (RAK3172_SetMode cfg s .device Mode).Sys with
          Device.Internal.RxQueue :=
            (RAK3172_SetMode cfg s .device Mode).Sys.Device.Internal.RxQueue ++ reply }
        .device).Sys.Device.Mode ∧
      ((RAK3172_GetMode cfg
        { (RAK3172_SetMode cfg s .device Mode).Sys with
          Device.Internal.RxQueue :=
            (RAK3172_SetMode cfg s .device Mode).Sys.Device.Internal.RxQueue ++ reply }
        .device).Sys.Device.Mode = Mode ↔ stoi V = .ok Mode) := by
  have _ := hset
  refine ⟨SetMode_keeps_mode cfg s .device Mode, ?_⟩
  obtain ⟨V, hV, hstoi⟩ := GetMode_ok cfg _ .device hget
  refine ⟨V, hV, hstoi, ?_⟩
  rw [hstoi]
  constructor
  · intro h; rw [h]
  · intro h; exact Except.ok.inj h

/-- C11, amended, at the RUI3 build: the set command for mode 1 is answered by "OK",
the reply to the query is "AT+NWM=1", "OK", and the mode field becomes 1. -/
theorem C11_SetMode_GetMode_witness :
    (RAK3172_SetMode rui3 (sampleSys true false ["OK".toList]) .device 1).Error
      = .returns RAK3172_ERR_OK ∧
    (RAK3172_GetMode rui3
        { (RAK3172_SetMode rui3 (sampleSys true false ["OK".toList]) .device 1).Sys with
          Device.Internal.RxQueue :=
            (RAK3172_SetMode rui3 (sampleSys true false ["OK".toList]) .device
              1).Sys.Device.Internal.RxQueue ++ ["AT+NWM=1".toList, "OK".toList] }
        .device).Sys.Device.Mode = 1 :=
  have h := C11_SetMode_GetMode rui3 (sampleSys true false ["OK".toList]) 1
    ["AT+NWM=1".toList, "OK".toList] (by decide) (by decide)
  ⟨by decide, by
    obtain ⟨_, V, hV, _, hiff⟩ := h
    have hV2 : V = "1".toList := by
      have : (some V : Option CppString) = some "1".toList := by rw [← hV]; decide
      exact Option.some.inj this
    exact hiff.mpr (by rw [hV2]; decide)⟩

/-! ## `RAK3172_SetBaud` -/

/-- C12: when the baud rate asked for is the one the device object holds,
`RAK3172_SetBaud` returns `RAK3172_ERR_OK` and the state is as before (nothing
written to the serial link, no line taken, the device unchanged). For any other baud
rate (a value of 32 bits) its result and effects are those of `RAK3172_SendCommand`
with the command "AT+BAUD=" followed by the decimal text of the baud rate, without
value and without status, and the baud rate held by the device object stays. -/
theorem C12_SetBaud (cfg : Config) (s : Sys) (Baud : RAK3172_Baud_t)
    (hlo : 0 ≤ Baud) (hhi : Baud < 2 ^ 32) :
    (s.Device.Baudrate = Baud →
      (RAK3172_SetBaud cfg s .device Baud).Error = .returns RAK3172_ERR_OK ∧
      (RAK3172_SetBaud cfg s .device Baud).Sys = s ∧
      (RAK3172_SetBaud cfg s .device Baud).Sys.Wire = s.Wire ∧
      (RAK3172_SetBaud cfg s .device Baud).Sys.Device.Internal.RxQueue
        = s.Device.Internal.RxQueue) ∧
    (s.Device.Baudrate ≠ Baud →
      RAK3172_SetBaud cfg s .device Baud
        = RAK3172_SendCommand cfg s .device ("AT+BAUD=".toList ++ decimalText Baud) none none ∧
      (RAK3172_SetBaud cfg s .device Baud).Sys.Device.Baudrate = s.Device.Baudrate) := by
  constructor
  · intro h
    simp [RAK3172_SetBaud, h]
  · intro h
    have hrun : RAK3172_SetBaud cfg s .device Baud
        = RAK3172_SendCommand cfg s .device ("AT+BAUD=".toList ++ decimalText Baud)
            none none := by
      rw [← to_string_uint32_eq Baud hlo hhi]
      simp [RAK3172_SetBaud, h]
    refine ⟨hrun, ?_⟩
    rw [hrun, SendCommand_frame]

/-- C12 at a device that holds 115200: asking for 115200 changes nothing, asking for
9600 writes "AT+BAUD=9600\r\n" and the device still holds 115200. -/
theorem C12_SetBaud_witness :
    (RAK3172_SetBaud rui3 (sampleSys true false ["OK".toList]) .device 115200).Sys
      = sampleSys true false ["OK".toList] ∧
    (RAK3172_SetBaud rui3 (sampleSys true false ["OK".toList]) .device 9600).Sys.Wire
      = "AT+BAUD=9600\r\n".toList ∧
    (RAK3172_SetBaud rui3 (sampleSys true false ["OK".toList]) .device 9600).Sys.Device.Baudrate
      = 115200 :=
  ⟨((C12_SetBaud rui3 (sampleSys true false ["OK".toList]) 115200 (by decide)
      (by decide)).1 rfl).2.1,
   by decide,
   ((C12_SetBaud rui3 (sampleSys true false ["OK".toList]) 9600 (by decide)
      (by decide)).2 (by decide)).2⟩

/-! ## The busy flag -/

/-- C13 as stated fails: a `RAK3172_SendCommand` on an initialized device that is not
busy and gets no reply returns `RAK3172_ERR_TIMEOUT` with the busy flag still clear,
and the `RAK3172_SendCommand` that follows is not rejected: it writes its command to
the serial link. -/
theorem C13_busy_after_timeout_counterexample :
    (RAK3172_SendCommand rui3 (sampleSys true false []) .device "AT+VER=?".toList
      (some []) none).Error = .returns RAK3172_ERR_TIMEOUT ∧
    (RAK3172_SendCommand rui3 (sampleSys true false []) .device "AT+VER=?".toList
      (some []) none).Sys.Device.Internal.isBusy = false ∧
    (RAK3172_SendCommand rui3
      (RAK3172_SendCommand rui3 (sampleSys true false []) .device "AT+VER=?".toList
        (some []) none).Sys .device "AT".toList none none).Sys.Wire
      = "AT+VER=?\r\nAT\r\n".toList := by
  decide

/-- C13, amended: `RAK3172_SendCommand` never changes the busy flag. After a call on
an initialized device that is not busy and that returns `RAK3172_ERR_TIMEOUT` the flag
is still clear, and the `RAK3172_SendCommand` that follows is accepted: it writes its
command and "\r\n" to the serial link. -/
theorem C13_SendCommand_busy_flag (cfg : Config) (s : Sys) (Command Command2 : CppString)
    (p_Value p_Status p_Value2 p_Status2 : Option CppString)
    (hinit : s.Device.Internal.isInitialized = true)
    (hbusy : s.Device.Internal.isBusy = false)
    (htimeout : (RAK3172_SendCommand cfg s .device Command p_Value p_Status).Error
      = .returns RAK3172_ERR_TIMEOUT) :
    (RAK3172_SendCommand cfg s .device Command p_Value p_Status).Sys.Device.Internal.isBusy
      = false ∧
    (RAK3172_SendCommand cfg
      (RAK3172_SendCommand cfg s .device Command p_Value p_Status).Sys .device Command2
      p_Value2 p_Status2).Sys.Wire
      = s.Wire ++ (Command ++ "\r\n".toList) ++ (Command2 ++ "\r\n".toList) := by
  have _ := htimeout
  have hframe := SendCommand_frame cfg s .device Command p_Value p_Status
  have hb : (RAK3172_SendCommand cfg s .device Command p_Value
      p_Status).Sys.Device.Internal.isBusy = false := by
    rw [hframe]; exact hbusy
  have hi : (RAK3172_SendCommand cfg s .device Command p_Value
      p_Status).Sys.Device.Internal.isInitialized = true := by
    rw [hframe]; exact hinit
  refine ⟨hb, ?_⟩
  rw [SendCommand_wire cfg _ Command2 p_Value2 p_Status2 hi hb,
    SendCommand_wire cfg s Command p_Value p_Status hinit hbusy]

/-- The busy flag after a `RAK3172_SendCommand` is the busy flag before it, whatever
the device, the arguments and the end of the call. -/
theorem SendCommand_keeps_busy (cfg : Config) (s : Sys) (p_Device : DevicePtr)
    (Command : CppString) (p_Value p_Status : Option CppString) :
    (RAK3172_SendCommand cfg s p_Device Command p_Value p_Status).Sys.Device.Internal.isBusy
      = s.Device.Internal.isBusy := by
  rw [SendCommand_frame]

/-- C13, amended, at a command without reply on the RUI3 build. -/
theorem C13_SendCommand_busy_flag_witness :
    (RAK3172_SendCommand rui3 (sampleSys true false []) .device "AT+VER=?".toList
      (some []) none).Error = .returns RAK3172_ERR_TIMEOUT ∧
    (RAK3172_SendCommand rui3 (sampleSys true false []) .device "AT+VER=?".toList
      (some []) none).Sys.Device.Internal.isBusy = false :=
  ⟨by decide,
   (C13_SendCommand_busy_flag rui3 (sampleSys true false []) "AT+VER=?".toList "AT".toList
      (some []) none none none rfl rfl (by decide)).1⟩

/-! ## The probe for echo mode -/

/-- A status line of the probe "AT" with neither "OK" nor "+EVT" ends the probe with
`RAK3172_ERR_FAIL`: only the lines of the probe are taken and nothing but "AT\r\n" is
written, so the lines of the echo are never received and "ATE" is never sent. -/
theorem Init_probe_fail (cfg : Config) (s : Sys) (pre rest : List CppString)
    (status : CppString)
    (hinit : s.Device.Internal.isInitialized = true)
    (hbusy : s.Device.Internal.isBusy = false)
    (hq : s.Device.Internal.RxQueue = pre ++ status :: rest)
    (hpre : pre.length = (if cfg.USE_RUI3 then 0 else 1))
    (hok : ¬ "OK".toList <:+: status) (hevt : ¬ "+EVT".toList <:+: status) :
    RAK3172_Init_probe cfg s = ⟨.returns RAK3172_ERR_FAIL,
      { s with Device.Internal.RxQueue := rest, Wire := s.Wire ++ "AT\r\n".toList }⟩ := by
  obtain ⟨⟨itf, rx, tx, rst, baud, mode, fw, sn, ⟨q, buf, hd, ini, busy⟩⟩, wire, ops, drv⟩ := s
  simp only at hinit hbusy hq
  subst hinit hbusy hq
  rcases cfg with ⟨rui, c2, c3, c4, c5⟩
  have hok2 : ¬ ['O', 'K'] <:+: status := hok
  have hevt2 : ¬ ['+', 'E', 'V', 'T'] <:+: status := hevt
  cases rui <;> rcases pre with _ | ⟨a, _ | ⟨b, pre⟩⟩ <;> simp at hpre <;>
    simp [RAK3172_Init_probe, RAK3172_SendCommand, RAK3172_SendCommand_linefeed,
      RAK3172_SendCommand_status, xQueueReceive, uart_write_bytes, RAK3172_ERROR_CHECK,
      find_eq_none_iff, hok2, hevt2]

/-- C14 fails for a status line of the probe that holds neither "OK" nor "+EVT", such
as the echo "AT" of the probe itself: `RAK3172_SendCommand` classifies it as
`RAK3172_ERR_FAIL`, `RAK3172_ERROR_CHECK` hands that to the caller, and `RAK3172_Init`
returns `RAK3172_ERR_FAIL` after the probe: the "OK" behind the echo is still queued
and only "ATZ" and "AT" were written, "ATE" was not. -/
theorem C14_Init_probe_echo_line :
    (RAK3172_Init rui3 (sampleEnv ["LoRaWAN.".toList, "AT".toList, "OK".toList])
      (sampleSys false false []) .device).Error = .returns RAK3172_ERR_FAIL ∧
    (RAK3172_Init rui3 (sampleEnv ["LoRaWAN.".toList, "AT".toList, "OK".toList])
      (sampleSys false false []) .device).Sys.Device.Internal.RxQueue = ["OK".toList] ∧
    (RAK3172_Init rui3 (sampleEnv ["LoRaWAN.".toList, "AT".toList, "OK".toList])
      (sampleSys false false []) .device).Sys.Wire = "ATZ\r\nAT\r\n".toList ∧
    (RAK3172_Init legacy
      (sampleEnv ["LoRaWAN.".toList, "AT".toList, "".toList, "OK".toList])
      (sampleSys false false []) .device).Error = .returns RAK3172_ERR_FAIL ∧
    (RAK3172_Init legacy
      (sampleEnv ["LoRaWAN.".toList, "AT".toList, "".toList, "OK".toList])
      (sampleSys false false []) .device).Sys.Wire = "ATZ\r\nAT\r\n".toList := by
  decide

/-- A status line of the probe "AT" with "+EVT" and without "OK" passes
`RAK3172_ERROR_CHECK` and leads into the block for echo mode. -/
theorem Init_probe_echo (cfg : Config) (s : Sys) (pre rest : List CppString)
    (status : CppString)
    (hinit : s.Device.Internal.isInitialized = true)
    (hbusy : s.Device.Internal.isBusy = false)
    (hq : s.Device.Internal.RxQueue = pre ++ status :: rest)
    (hpre : pre.length = (if cfg.USE_RUI3 then 0 else 1))
    (hok : ¬ "OK".toList <:+: status) (hevt : "+EVT".toList <:+: status) :
    RAK3172_Init_probe cfg s = RAK3172_Init_echo cfg
      { s with Device.Internal.RxQueue := rest, Wire := s.Wire ++ "AT\r\n".toList } := by
  obtain ⟨⟨itf, rx, tx, rst, baud, mode, fw, sn, ⟨q, buf, hd, ini, busy⟩⟩, wire, ops, drv⟩ := s
  simp only at hinit hbusy hq
  subst hinit hbusy hq
  rcases cfg with ⟨rui, c2, c3, c4, c5⟩
  have hok2 : ¬ ['O', 'K'] <:+: status := hok
  have hevt2 : ['+', 'E', 'V', 'T'] <:+: status := hevt
  cases rui <;> rcases pre with _ | ⟨a, _ | ⟨b, pre⟩⟩ <;> simp at hpre <;>
    simp [RAK3172_Init_probe, RAK3172_SendCommand, RAK3172_SendCommand_linefeed,
      RAK3172_SendCommand_status, xQueueReceive, uart_write_bytes, RAK3172_ERROR_CHECK,
      find_eq_none_iff, hok2, hevt2]

/-- The block for echo mode of `RAK3172_Init`: one line is taken, "ATE\r\n" is written,
then two lines are taken with the RUI3 firmware and three with the legacy firmware.
When all of them arrive, the last one is used after its `delete` (lines 323 and 326):
the outcome is undefined, whatever the line holds. -/
theorem Init_echo_run (cfg : Config) (s : Sys) (e1 e2 last : CppString)
    (mid rest : List CppString)
    (hq : s.Device.Internal.RxQueue = e1 :: e2 :: (mid ++ last :: rest))
    (hmid : mid.length = (if cfg.USE_RUI3 then 0 else 1)) :
    RAK3172_Init_echo cfg s = ⟨.undefined,
      { s with Device.Internal.RxQueue := rest, Wire := s.Wire ++ "ATE\r\n".toList }⟩ := by
  obtain ⟨⟨itf, rx, tx, rst, baud, mode, fw, sn, ⟨q, buf, hd, ini, busy⟩⟩, wire, ops, drv⟩ := s
  simp only at hq
  subst hq
  rcases cfg with ⟨rui, c2, c3, c4, c5⟩
  cases rui <;> rcases mid with _ | ⟨a, _ | ⟨b, mid⟩⟩ <;> simp at hmid <;>
    simp [RAK3172_Init_echo, xQueueReceive, uart_write_bytes]

/-- A receive of the block for echo mode that times out ends `RAK3172_Init` with
`RAK3172_ERR_TIMEOUT`; here the first one, with "ATE" not yet written. -/
theorem Init_echo_timeout (cfg : Config) (s : Sys)
    (hq : s.Device.Internal.RxQueue = []) :
    RAK3172_Init_echo cfg s = ⟨.returns RAK3172_ERR_TIMEOUT, s⟩ := by
  simp [RAK3172_Init_echo, xQueueReceive, hq]

/-! ## The receive task -/

/-- The copy loop of the receive task keeps the first `p` bytes of the buffer without
'\r' and '\n', in their order. -/
theorem EventTask_copy_eq (RxBuffer : List Char) (p : Nat) (hp : p ≤ RxBuffer.length) :
    RAK3172_UART_EventTask_copy RxBuffer p
      = (RxBuffer.take p).filter (fun c => c ≠ '\r' ∧ c ≠ '\n') := by
  induction p with
  | zero => simp [RAK3172_UART_EventTask_copy]
  | succ n ih =>
    have hn : n < RxBuffer.length := by omega
    have ih2 := ih (by omega)
    simp only [RAK3172_UART_EventTask_copy] at ih2 ⊢
    rw [List.range_succ, List.foldl_append, ih2, List.take_succ, List.filter_append]
    simp only [List.foldl_cons, List.foldl_nil, List.getElem?_eq_getElem hn,
      Option.toList_some]
    by_cases h1 : RxBuffer[n] = '\n'
    · simp [h1]
    · by_cases h2 : RxBuffer[n] = '\r'
      · simp [h2]
      · simp [h1, h2]

/-- One round of the receive task for a line boundary at a position `p` that is not
the value -1 and lies inside the received bytes and inside the scratch buffer ends,
and it builds the line made of the first `p` received bytes without '\r' and '\n', the
other bytes in their order. A queue with room for a line becomes the old queue followed by
that line; a queue at its capacity stays as it is: the new line is dropped, the
queued lines and their order are kept, and the round does not wait. -/
theorem EventTask_step_within_buffer (tc : TaskConfig) (s : Sys) (Buffered RxBuffer : List Char)
    (p : Nat)
    (hbuf : s.Device.Internal.RxBuffer = some RxBuffer)
    (hvalid : p < 2 ^ 32 - 1)
    (hrecv : p ≤ Buffered.length)
    (hcap : p ≤ tc.TASK_BUFFER_SIZE) :
    ∃ s', RAK3172_UART_EventTask_step tc s Buffered .UART_PATTERN_DET (p : Int)
        = some (s', Buffered.drop p) ∧
      (s.Device.Internal.RxQueue.length < tc.TASK_QUEUE_LENGTH →
        s'.Device.Internal.RxQueue = s.Device.Internal.RxQueue ++
          [(Buffered.take p).filter (fun c => c ≠ '\r' ∧ c ≠ '\n')]) ∧
      (tc.TASK_QUEUE_LENGTH ≤ s.Device.Internal.RxQueue.length →
        s'.Device.Internal.RxQueue = s.Device.Internal.RxQueue) := by
  have hpos : (((p : Int) % 2 ^ 32).toNat) = p := by
    have h : ((p : Int) % 2 ^ 32) = (p : Int) :=
      Int.emod_eq_of_lt (Int.ofNat_nonneg p) (by omega)
    rw [h]
    exact Int.toNat_natCast p
  have hne : ¬ p = 2 ^ 32 - 1 := by omega
  have hlen : (Buffered.take p).length = p := by
    rw [List.length_take]; omega
  have hcopy : RAK3172_UART_EventTask_copy
      (Buffered.take p ++ RxBuffer.drop (Buffered.take p).length) p
      = (Buffered.take p).filter (fun c => c ≠ '\r' ∧ c ≠ '\n') := by
    rw [EventTask_copy_eq _ p (by rw [List.length_append]; omega)]
    congr 1
    rw [List.take_append_of_le_length (by omega), List.take_of_length_le (by omega)]
  simp only [RAK3172_UART_EventTask_step, hpos, hne, if_false, hbuf,
    Nat.not_lt.mpr hcap, hcopy]
  refine ⟨_, rfl, ?_, ?_⟩
  · intro hroom
    simp [xQueueSend, hroom]
  · intro hfull
    simp [xQueueSend, Nat.not_lt.mpr hfull]

/-- The bytes "OK\r\n" with the line boundary at position 3: with one line
queued the line "OK" is put behind it; with eight lines queued (the capacity) the
queue stays as it is. -/
theorem EventTask_step_within_buffer_example :
    (∃ s', RAK3172_UART_EventTask_step defaultTaskConfig
        (sampleSys true false ["+EVT:JOINED".toList]) "OK\r\n".toList .UART_PATTERN_DET 3
        = some (s', "\n".toList) ∧
      s'.Device.Internal.RxQueue = ["+EVT:JOINED".toList, "OK".toList]) ∧
    (∃ s', RAK3172_UART_EventTask_step defaultTaskConfig
        (sampleSys true false (List.replicate 8 "+EVT:RX".toList)) "OK\r\n".toList
        .UART_PATTERN_DET 3 = some (s', "\n".toList) ∧
      s'.Device.Internal.RxQueue = List.replicate 8 "+EVT:RX".toList) := by
  constructor
  · obtain ⟨s', h1, h2, _⟩ := EventTask_step_within_buffer defaultTaskConfig
      (sampleSys true false ["+EVT:JOINED".toList]) "OK\r\n".toList [] 3 rfl (by decide)
      (by decide) (by decide)
    exact ⟨s', h1, h2 (by decide)⟩
  · obtain ⟨s', h1, _, h3⟩ := EventTask_step_within_buffer defaultTaskConfig
      (sampleSys true false (List.replicate 8 "+EVT:RX".toList)) "OK\r\n".toList [] 3 rfl
      (by decide) (by decide) (by decide)
    exact ⟨s', h1, h3 (by decide)⟩

/-- C15 fails for a line boundary beyond the scratch buffer. The position 1025 is
valid for the source (it is not -1) and 1026 received bytes fit the UART ring of twice
the buffer size, but `uart_read_bytes` is told to put 1025 bytes into `RxBuffer` of
1024 bytes and the copy loop reads `RxBuffer[1024]`: the round runs past the buffer
and its behaviour is undefined, where the claim has the line of the first 1025 bytes
built and queued. -/
theorem C15_EventTask_step_overrun :
    RAK3172_UART_EventTask_step defaultTaskConfig (sampleSys true false [])
      (List.replicate 1025 'A' ++ ['\n']) .UART_PATTERN_DET 1025 = none ∧
    (1025 : Int) ≠ -1 ∧
    1025 ≤ (List.replicate 1025 'A' ++ ['\n']).length ∧
    (List.replicate 1025 'A' ++ ['\n']).length ≤ 2 * defaultTaskConfig.TASK_BUFFER_SIZE ∧
    defaultTaskConfig.TASK_BUFFER_SIZE < 1025 :=
  ⟨by decide, by decide,
   by rw [List.length_append, List.length_replicate]; decide,
   by rw [List.length_append, List.length_replicate]; decide,
   by decide⟩

/-- An invalid position (-1) makes the round drop the received bytes and leave the
state, the queue included, as it is. -/
theorem EventTask_step_invalid (tc : TaskConfig) (s : Sys) (Buffered : List Char) :
    RAK3172_UART_EventTask_step tc s Buffered .UART_PATTERN_DET (-1) = some (s, []) := by
  simp [RAK3172_UART_EventTask_step]

end RAK3172
